import Mathlib

/-!
Verification development for the Infinite Horizons terrain pipeline.

The JavaScript sources are shallowly embedded over exact rationals (ℚ):
JS numbers are modelled as their ideal rational values, machine-integer
bit operations (`| 0`, `& 0xFFFF`, `^`, `>>`) are modelled exactly on ℤ/ℕ.
Two transcendental JS library calls (`Math.pow(v, 1.2)` in the valleys
region branch, and `Math.sin` / `Math.cos` / `Math.sqrt` in the
minimum-variation fallback `enhanceHeightVariation`) have no rational
counterpart; they are abstracted as an explicit oracle parameter
(`JsMath`).  All theorems below either hold for every instantiation of
the oracle or only exercise code paths on which the oracle is provably
not consulted (the concrete evaluations all take place in region
archetype 0 = mountains, and on grids whose height variation is at
least the 0.1 fallback threshold, which the theorems check).
-/

set_option maxRecDepth 100000

namespace InfHorizons

/-! ## Noise generator (noiseGenerator.js, enhanced variant)

Embeds `createNoiseGenerator` and its closure functions `hashFunction`,
`pseudoRandom`, `lerp`, `smootherstep`, `getNoise`, `getFractalNoise`,
`getHeightAtPosition`. -/

/-- Raw noise configuration record as passed to `createNoiseGenerator`
(the `noise` section of config.js).  `octaves` is kept as a natural
number since it is used as a loop bound. -/
structure NoiseConfig where
  seed : ℚ
  scale : ℚ
  octaves : ℕ
  persistence : ℚ
  lacunarity : ℚ

/-- The `state` record captured by the `createNoiseGenerator` closure. -/
structure NoiseState where
  seed : ℚ
  scale : ℚ
  octaves : ℕ
  persistence : ℚ
  lacunarity : ℚ

/-- JS `ToInt32` conversion (the `| 0` coercion). -/
def toInt32 (n : ℤ) : ℤ := (n + 2 ^ 31) % 2 ^ 32 - 2 ^ 31

/-- Construction of the noise-generator state.  `ambientRandom` models the
ambient `Math.random()` value consulted when `noiseConfig.seed` is falsy;
each `x || d` default in the source becomes an `if x = 0` test (0 is the
falsy rational). -/
def createNoiseGenerator (cfg : NoiseConfig) (ambientRandom : ℚ) : NoiseState :=
  { seed := if cfg.seed = 0 then ambientRandom * 1000000 else cfg.seed
    scale := if cfg.scale = 0 then 5 / 1000 else cfg.scale
    octaves := if cfg.octaves = 0 then 6 else cfg.octaves
    persistence := if cfg.persistence = 0 then 65 / 100 else cfg.persistence
    lacunarity := if cfg.lacunarity = 0 then 22 / 10 else cfg.lacunarity }

/-- `hashFunction(x, y, seed)`: integer bit-mixing hash.  `& 0xFFFF` of an
exact integer is `emod 2^16` (ToInt32 is mod 2^32 and 2^16 divides 2^32);
`h >> 8` on a value in [0, 2^16) is division by 256; `^` is bitwise xor.
The final `* 0x2E63` is not masked in the source, so the result ranges up
to 65535 * 11875. -/
def hashFunction (x y : ℤ) (seed : ℚ) : ℤ :=
  let ix := toInt32 x
  let iy := toInt32 y
  let _iseed := toInt32 ⌊seed⌋
  let h0 := _iseed % 65536
  let h1 := (h0 * 73 + ix) % 65536
  let h2 := (h1 * 73 + iy) % 65536
  let h3 := (h2 * (h2 + 19)) % 65536
  let h4 := (h3 * h3 * 60493) % 65536
  ((h4.toNat ^^^ (h4.toNat >>> 8)) * 11875 : ℕ)

/-- `pseudoRandom(x, y)`: hash scaled to [0, 1). -/
def pseudoRandom (st : NoiseState) (x y : ℤ) : ℚ :=
  (hashFunction x y st.seed : ℚ) / 4294967296

/-- `lerp(a, b, t)`. -/
def lerp (a b t : ℚ) : ℚ := a + t * (b - a)

/-- `smootherstep(t)`: quintic smoothing curve 6t⁵ − 15t⁴ + 10t³. -/
def smootherstep (t : ℚ) : ℚ := t * t * t * (t * (t * 6 - 15) + 10)

/-- `getNoise(x, y)`: bilinear value noise over the integer lattice with
quintic interpolation, scaled to [-1, 1]. -/
def getNoise (st : NoiseState) (x y : ℚ) : ℚ :=
  let xi : ℤ := ⌊x⌋
  let yi : ℤ := ⌊y⌋
  let xf : ℚ := x - xi
  let yf : ℚ := y - yi
  let n00 := pseudoRandom st xi yi
  let n01 := pseudoRandom st xi (yi + 1)
  let n10 := pseudoRandom st (xi + 1) yi
  let n11 := pseudoRandom st (xi + 1) (yi + 1)
  let u := smootherstep xf
  let v := smootherstep yf
  let nx0 := lerp n00 n10 u
  let nx1 := lerp n01 n11 u
  let nxy := lerp nx0 nx1 v
  nxy * 2 - 1

/-- One iteration of the octave loop in `getFractalNoise`: the accumulator
carries (amplitude, frequency, noiseValue, amplitudeSum). -/
def octaveStep (st : NoiseState) (x z warpX warpZ : ℚ)
    (acc : ℚ × ℚ × ℚ × ℚ) (i : ℕ) : ℚ × ℚ × ℚ × ℚ :=
  let amplitude := acc.1
  let frequency := acc.2.1
  let nv := acc.2.2.1
  let asum := acc.2.2.2
  let sX := (x + warpX * ((i : ℚ) / (st.octaves : ℚ))) * frequency
  let sZ := (z + warpZ * ((i : ℚ) / (st.octaves : ℚ))) * frequency
  (amplitude * st.persistence, frequency * st.lacunarity,
    nv + amplitude * getNoise st sX sZ, asum + amplitude)

/-- `getFractalNoise(x, z)` (enhanced variant): domain-warped octave sum
with a large-scale term, conditional ridged component, normalization and
contrast enhancement, clamped to [0, 1]. -/
def getFractalNoise (st : NoiseState) (x z : ℚ) : ℚ :=
  let warpX := getNoise st (x * (1 / 2)) (z * (1 / 2)) * 5
  let warpZ := getNoise st (x * (1 / 2) + 100) (z * (1 / 2) + 100) * 5
  let nv0 := getNoise st (x * (1 / 10)) (z * (1 / 10)) * (1 / 2)
  let r := (List.range st.octaves).foldl (octaveStep st x z warpX warpZ)
    (1, st.scale, nv0, 0)
  let frequency := r.2.1
  let nv1 := r.2.2.1
  let asum := r.2.2.2
  let nv := if nv1 > 1 / 2 then
      let ridged := 1 - |getNoise st (x * frequency * (1 / 2)) (z * frequency * (1 / 2))|
      nv1 + ridged * ridged * (3 / 10)
    else nv1
  let nn := (nv / (asum + 1 / 2)) * (1 / 2) + 1 / 2
  let nn2 := (nn - 1 / 2) * (6 / 5) + 1 / 2
  max 0 (min 1 nn2)

/-- `getHeightAtPosition(worldX, worldZ)` on the noise generator: three
fixed-scale fractal samples with weights 0.6 / 0.3 / 0.1. -/
def noiseHeightAtPosition (st : NoiseState) (worldX worldZ : ℚ) : ℚ :=
  (6 / 10) * getFractalNoise st (worldX * (5 / 1000)) (worldZ * (5 / 1000)) +
  (3 / 10) * getFractalNoise st (worldX * (1 / 100)) (worldZ * (1 / 100)) +
  (1 / 10) * getFractalNoise st (worldX * (5 / 100)) (worldZ * (5 / 100))

/-- The repository noise configuration (config.js `noise` section). -/
def repoNoiseConfig : NoiseConfig :=
  { seed := 42, scale := 5 / 1000, octaves := 6
    persistence := 65 / 100, lacunarity := 22 / 10 }

/-- The noise state the repository actually runs with (seed 42 is truthy,
so the ambient random draw is irrelevant; we fix it to 0). -/
def repoState : NoiseState := createNoiseGenerator repoNoiseConfig 0

/-! ## Transcendental oracle

`Math.pow(v, 1.2)` (valleys region branch), `Math.sin`, `Math.cos` and
`Math.sqrt` (fallback `enhanceHeightVariation`) have no exact rational
value, so the embedding abstracts them as an oracle record.  `sinPi t`
stands for sin(π·t) and `cosPi t` for cos(π·t) (the source always forms
the angle as a rational multiple of `Math.PI`). -/

/-- Oracle for the transcendental JS library functions. -/
structure JsMath where
  pow12 : ℚ → ℚ
  sinPi : ℚ → ℚ
  cosPi : ℚ → ℚ
  sqrtQ : ℚ → ℚ
  sinQ : ℚ → ℚ

/-- A fixed dummy instantiation of the oracle, used only in closed
statements whose evaluation provably never consults it. -/
def jsMathZero : JsMath :=
  { pow12 := fun _ => 0, sinPi := fun _ => 0, cosPi := fun _ => 0
    sqrtQ := fun _ => 0, sinQ := fun _ => 0 }

/-! ## Elevation grid generation (noiseGenerator.js `generateHeightmap`)

Grids are modelled as total functions `ℕ → ℚ` on flattened indices
`i = z * resolution + x`; the source only ever reads indices below
`resolution²` (for `smoothChunkEdges` this is exactly the in-bounds
condition proved below for `resolution ≥ 4`, and refuted for
`resolution = 3`). -/

/-- A flattened elevation grid. -/
def Grid := ℕ → ℚ

/-- `addRegionalFeatures(baseValue, x, z, regionX, regionZ)`: the region
archetype is `(regionX + regionZ) % 5` with JS truncating remainder
(`Int.tmod`), so negative sums select no case and fall through to the
default branch.  The valleys branch calls `Math.pow(baseValue, 1.2)`,
modelled by the oracle. -/
def addRegionalFeatures (st : NoiseState) (jm : JsMath) (baseValue x z : ℚ)
    (regionX regionZ : ℤ) : ℚ :=
  let regionType := Int.tmod (regionX + regionZ) 5
  if regionType = 0 then baseValue * (12 / 10)
  else if regionType = 1 then jm.pow12 baseValue * (9 / 10)
  else if regionType = 2 then
    let threshold := 1 / 2 + getNoise st (x * (1 / 100)) (z * (1 / 100)) * (1 / 10)
    if baseValue > threshold then threshold + (baseValue - threshold) * (3 / 10)
    else baseValue * (9 / 10)
  else if regionType = 3 then baseValue * (85 / 100) + 15 / 100
  else baseValue

/-- The per-cell body of `generateHeightmap` (before edge smoothing):
three fixed-scale fractal samples, a domain-warped contribution, the
guaranteed per-tile slope, the regional offset, regional shaping and the
clamp to [0.1, 0.9]. -/
def heightmapCell (st : NoiseState) (jm : JsMath) (chunkX chunkZ : ℤ)
    (chunkSize : ℚ) (resolution : ℕ) (x z : ℕ) : ℚ :=
  let baseHeight := 3 / 10 + pseudoRandom st chunkX chunkZ * (4 / 10)
  let worldX := (chunkX : ℚ) * chunkSize
  let worldZ := (chunkZ : ℚ) * chunkSize
  let scale := chunkSize / ((resolution : ℚ) - 1)
  let slopeDirectionX := pseudoRandom st (chunkX * 13) (chunkZ * 7) * 2 - 1
  let slopeDirectionZ := pseudoRandom st (chunkX * 7) (chunkZ * 13) * 2 - 1
  let slopeIntensity := 2 / 10 + pseudoRandom st (chunkX + chunkZ) (chunkX * chunkZ) * (3 / 10)
  let wx := worldX + (x : ℚ) * scale
  let wz := worldZ + (z : ℚ) * scale
  let gx := wx * (5 / 1000)
  let gz := wz * (5 / 1000)
  let mx := wx * (1 / 100)
  let mz := wz * (1 / 100)
  let sx := wx * (5 / 100)
  let sz := wz * (5 / 100)
  let nv0 := getFractalNoise st gx gz * (6 / 10)
  let nv1 := nv0 + getFractalNoise st mx mz * (3 / 10)
  let nv2 := nv1 + getFractalNoise st sx sz * (1 / 10)
  let warpX := getNoise st mx mz * 10
  let warpZ := getNoise st (mx + 100) (mz + 100) * 10
  let nv3 := nv2 + getFractalNoise st (gx + warpX * (5 / 1000)) (gz + warpZ * (5 / 1000)) * (2 / 10)
  let normalizedX := (x : ℚ) / ((resolution : ℚ) - 1)
  let normalizedZ := (z : ℚ) / ((resolution : ℚ) - 1)
  let slopeVariation := (normalizedX * slopeDirectionX + normalizedZ * slopeDirectionZ) * slopeIntensity
  let regionX := ⌊(chunkX : ℚ) / 8⌋
  let regionZ := ⌊(chunkZ : ℚ) / 8⌋
  let regionOffset := pseudoRandom st regionX regionZ * (3 / 10)
  let nv4 := baseHeight + nv3 + slopeVariation + regionOffset
  let nv5 := addRegionalFeatures st jm nv4 wx wz regionX regionZ
  max (1 / 10) (min (9 / 10) nv5)

/-- The raw (pre-smoothing) grid of `generateHeightmap`. -/
def rawHeightmap (st : NoiseState) (jm : JsMath) (chunkX chunkZ : ℤ)
    (chunkSize : ℚ) (resolution : ℕ) : Grid :=
  fun i => heightmapCell st jm chunkX chunkZ chunkSize resolution
    (i % resolution) (i / resolution)

/-- The row sweep of `smoothChunkEdges` (north edge row 0 blended with row
3, south edge row `res-1` blended with row `res-3`, `BORDER_SIZE = 1`).
Within the source loop neither statement reads a cell the loop has
already written (for `resolution ≥ 4`), so the sweep is a pointwise map
of the original grid. -/
def smoothRowPass (resolution : ℕ) (g : Grid) : Grid := fun i =>
  if i < resolution then
    g i * (8 / 10) + g (3 * resolution + i) * (2 / 10)
  else if (resolution - 1) * resolution ≤ i ∧ i < resolution * resolution then
    g i * (8 / 10) + g ((resolution - 3) * resolution + (i - (resolution - 1) * resolution)) * (2 / 10)
  else g i

/-- The column sweep of `smoothChunkEdges` (west column 0 blended with
column 2, east column `res-1` with column `res-3`), applied after the row
sweep; again pointwise for `resolution ≥ 4`. -/
def smoothColPass (resolution : ℕ) (g : Grid) : Grid := fun i =>
  if i % resolution = 0 ∧ i < resolution * resolution then
    g i * (8 / 10) + g (i + 2) * (2 / 10)
  else if i % resolution = resolution - 1 ∧ i < resolution * resolution then
    g i * (8 / 10) + g (i - 2) * (2 / 10)
  else g i

/-- `smoothChunkEdges`: row sweep then column sweep. -/
def smoothChunkEdges (resolution : ℕ) (g : Grid) : Grid :=
  smoothColPass resolution (smoothRowPass resolution g)

/-- `generateHeightmap(chunkX, chunkZ, chunkSize, resolution)` on the
noise generator: per-cell synthesis followed by edge smoothing. -/
def generateHeightmap (st : NoiseState) (jm : JsMath) (chunkX chunkZ : ℤ)
    (chunkSize : ℚ) (resolution : ℕ) : Grid :=
  smoothChunkEdges resolution (rawHeightmap st jm chunkX chunkZ chunkSize resolution)

/-- The neighbor-row/column indices read by the `smoothChunkEdges` loops
(north reads `(BORDER_SIZE+2)*res + x`, south reads `(res-3)*res + x`,
west reads `z*res + 2`, east reads `z*res + (res-3)`), as written in the
source, over ℤ so that negative indices are representable. -/
def smoothChunkEdgesReads (resolution : ℕ) : List ℤ :=
  ((List.range resolution).map fun x => (((1 + 2) * resolution + x : ℕ) : ℤ)) ++
  ((List.range resolution).map fun (x : ℕ) => ((resolution : ℤ) - 3) * resolution + (x : ℤ)) ++
  ((List.range resolution).map fun z => ((z * resolution + (0 + 2) : ℕ) : ℤ)) ++
  ((List.range resolution).map fun (z : ℕ) => (z : ℤ) * resolution + ((resolution : ℤ) - 3))

/-- All `smoothChunkEdges` neighbor reads hit the `resolution²`-element
heightmap array. -/
def SmoothReadsInBounds (resolution : ℕ) : Prop :=
  ∀ i ∈ smoothChunkEdgesReads resolution, 0 ≤ i ∧ i < ((resolution : ℤ) * resolution)

instance (resolution : ℕ) : Decidable (SmoothReadsInBounds resolution) := by
  unfold SmoothReadsInBounds; infer_instance

/-! ## Heightmap generator (heightmap.js, enhanced variant = part_002) -/

/-- `MIN_HEIGHT_VARIATION` from the heightmap generator. -/
def MIN_HEIGHT_VARIATION : ℚ := 1 / 10

/-- The list of cells of a grid at a given resolution. -/
def gridCells (g : Grid) (resolution : ℕ) : List ℚ :=
  (List.range (resolution * resolution)).map g

/-- Minimum cell value, starting from the source's initial accumulator 1. -/
def gridMin (g : Grid) (resolution : ℕ) : ℚ :=
  (gridCells g resolution).foldl min 1

/-- Maximum cell value, starting from the source's initial accumulator 0. -/
def gridMax (g : Grid) (resolution : ℕ) : ℚ :=
  (gridCells g resolution).foldl max 0

/-- `heightVariation = max - min` over the generated grid. -/
def heightVariation (g : Grid) (resolution : ℕ) : ℚ :=
  gridMax g resolution - gridMin g resolution

/-- The heightmap generator's own sin-hash `pseudoRandom(x, y)`
(`a = sin(x·12.9898 + y·78.233)·43758.5453; a - ⌊a⌋`). -/
def hmPseudoRandom (jm : JsMath) (x y : ℚ) : ℚ :=
  let a := jm.sinQ (x * (129898 / 10000) + y * (78233 / 1000)) * (437585453 / 10000)
  a - ⌊a⌋

/-- `enhanceHeightVariation(heightValues, resolution, chunkX, chunkZ)`:
adds a sinusoidal pattern, a radial pattern and a hashed perturbation to
every cell; a pointwise map of the input grid. -/
def enhanceHeightVariation (jm : JsMath) (g : Grid) (resolution : ℕ)
    (chunkX chunkZ : ℤ) : Grid := fun i =>
  let x := i % resolution
  let z := i / resolution
  let nx := (x : ℚ) / ((resolution : ℚ) - 1)
  let nz := (z : ℚ) / ((resolution : ℚ) - 1)
  let sinePattern := jm.sinPi (nx * 3) * jm.cosPi (nz * 2) * (1 / 10)
  let radialPattern := (1 / 10) *
    (1 - min 1 (2 * jm.sqrtQ ((nx - 1 / 2) * (nx - 1 / 2) + (nz - 1 / 2) * (nz - 1 / 2))))
  let randomFactor := hmPseudoRandom jm ((x : ℚ) + (chunkX : ℚ) * resolution)
    ((z : ℚ) + (chunkZ : ℚ) * resolution) * (5 / 100)
  g i + sinePattern + radialPattern + randomFactor

/-- `generateHeightmapForChunk`: raw noise grid, then the
minimum-variation fallback when `max - min < MIN_HEIGHT_VARIATION`. -/
def generateHeightmapForChunk (st : NoiseState) (jm : JsMath) (chunkX chunkZ : ℤ)
    (chunkSize : ℚ) (resolution : ℕ) : Grid :=
  let hv := generateHeightmap st jm chunkX chunkZ chunkSize resolution
  if heightVariation hv resolution < MIN_HEIGHT_VARIATION then
    enhanceHeightVariation jm hv resolution chunkX chunkZ
  else hv

/-- `getHeightAtPosition(worldX, worldZ, maxHeight)` on the heightmap
generator: the noise generator's position query scaled by `maxHeight`. -/
def hmGetHeightAtPosition (st : NoiseState) (worldX worldZ maxHeight : ℚ) : ℚ :=
  noiseHeightAtPosition st worldX worldZ * maxHeight

/-! ## Mesh builder (meshBuilder.js `optimizeVertexData` = part_003, and
`createVertexData` from heightmap.js)

Only the vertex lattice and the index list matter to the claims; heights,
normals and uvs are carried by the same loops and shapes. -/

/-- The two triangles pushed for one grid cell (`bottomLeft, bottomRight,
topRight` then `bottomLeft, topRight, topLeft`), for a vertex row of
length `rowLen`. -/
def quadIndices (rowLen z x : ℕ) : List ℕ :=
  [z * rowLen + x, z * rowLen + x + 1, (z + 1) * rowLen + x + 1,
   z * rowLen + x, (z + 1) * rowLen + x + 1, (z + 1) * rowLen + x]

/-- The triangle index list generated by the `z < rowLen-1`, `x < rowLen-1`
double loop (used identically by `createVertexData` and by
`optimizeVertexData` with the decimated resolution). -/
def gridIndices (rowLen : ℕ) : List ℕ :=
  (List.range (rowLen - 1)).flatMap fun z =>
    (List.range (rowLen - 1)).flatMap fun x => quadIndices rowLen z x

/-- The full vertex lattice written by `createVertexData`. -/
def fullCoords (resolution : ℕ) : List (ℕ × ℕ) :=
  (List.range resolution).flatMap fun z =>
    (List.range resolution).map fun x => (z, x)

/-- The vertex lattice sampled by the decimation loops
(`for z = 0; z < resolution; z += skipFactor`). -/
def sampledCoords (resolution skipFactor : ℕ) : List (ℕ × ℕ) :=
  ((List.range resolution).filter fun z => z % skipFactor = 0).flatMap fun z =>
    ((List.range resolution).filter fun x => x % skipFactor = 0).map fun x => (z, x)

/-- Vertex/index payload of a built mesh. -/
structure MeshData where
  verts : List (ℕ × ℕ)
  indices : List ℕ

/-- `createVertexData` at full resolution. -/
def createVertexData (resolution : ℕ) : MeshData :=
  { verts := fullCoords resolution, indices := gridIndices resolution }

/-- `skipFactor = Math.pow(2, lodLevel)`. -/
def skipFactor (lodLevel : ℕ) : ℕ := 2 ^ lodLevel

/-- `newResolution = Math.floor((resolution - 1) / skipFactor) + 1`. -/
def newResolution (resolution lodLevel : ℕ) : ℕ :=
  (resolution - 1) / skipFactor lodLevel + 1

/-- `optimizeVertexData(vertexData, heights, resolution, lodLevel)`:
returns the original data when `lodLevel === 0` or adaptive LOD is
disabled, otherwise resamples at stride `skipFactor` and rebuilds the
index list at the decimated resolution. -/
def optimizeVertexData (enableAdaptiveLOD : Bool) (vertexData : MeshData)
    (resolution lodLevel : ℕ) : MeshData :=
  if lodLevel = 0 ∨ enableAdaptiveLOD = false then vertexData
  else
    { verts := sampledCoords resolution (skipFactor lodLevel)
      indices := gridIndices (newResolution resolution lodLevel) }

/-- Triangle count of a mesh payload (each face is three indices). -/
def triangleCount (md : MeshData) : ℕ := md.indices.length / 3

/-! ## Streaming distance metrics

part_001 (`Modified chunk management for seamless transitions`) computes
`Math.max(Math.abs(x - centerX), Math.abs(z - centerZ))` at all four of
its distance sites; src/terrain/chunkManager.js computes
`Math.abs(x - centerX) + Math.abs(z - centerZ)` at all three of its
sites.  One definition per site, named after the site. -/

/-- Chebyshev distance in tile-grid units, as the spec describes it. -/
def chebyshevDistance (x z cx cz : ℤ) : ℤ := max |x - cx| |z - cz|

/-- part_001 `loadChunksAroundPosition` candidate distance (line 110). -/
def p1LoadDistance (x z cx cz : ℤ) : ℤ := max |x - cx| |z - cz|

/-- part_001 `unloadDistantChunks` distance (line 207). -/
def p1UnloadDistance (x z cx cz : ℤ) : ℤ := max |x - cx| |z - cz|

/-- part_001 `updateChunkLOD` distance (line 268), which feeds
`calculateLODLevelForDistance`. -/
def p1LODDistance (x z cx cz : ℤ) : ℤ := max |x - cx| |z - cz|

/-- part_001 `unloadFurthestChunks` distance (line 231). -/
def p1FurthestDistance (x z cx cz : ℤ) : ℤ := max |x - cx| |z - cz|

/-- chunkManager.js `loadChunksAroundPosition` candidate distance
(line 95, commented `(Manhattan distance)` in the source). -/
def cmLoadDistance (x z cx cz : ℤ) : ℤ := |x - cx| + |z - cz|

/-- chunkManager.js `unloadDistantChunks` distance (line 175). -/
def cmUnloadDistance (x z cx cz : ℤ) : ℤ := |x - cx| + |z - cz|

/-- chunkManager.js `updateChunkLOD` distance (line 204). -/
def cmLODDistance (x z cx cz : ℤ) : ℤ := |x - cx| + |z - cz|

/-- part_001 `calculateLODLevelForDistance`. -/
def calculateLODLevelForDistance (enableAdaptiveLOD : Bool) (distance : ℤ) : ℕ :=
  if enableAdaptiveLOD = false then 0
  else if distance ≤ 1 then 0
  else if distance ≤ 2 then 1
  else if distance ≤ 3 then 2
  else 3

/-- part_001 `unloadDistantChunks` selection: the loaded keys whose
distance exceeds `unloadDistance`. -/
def p1UnloadSelect (unloadDistance cx cz : ℤ) (keys : List (ℤ × ℤ)) : List (ℤ × ℤ) :=
  keys.filter fun k => unloadDistance < p1UnloadDistance k.1 k.2 cx cz

/-! ## Chunk-manager state machine (part_001)

`loadedChunks` is the JS `Map` (association list with unique keys,
insertion order), `chunksInProgress` the JS `Set`.  Tile generation
(`generateHeightmapForChunk` plus mesh building) is synchronous work
whose outcome is passed in as `raw : Option Grid` — `none` models a
thrown exception, `some g` the generated height grid; its value is
settled by the generation model above and is irrelevant to the
bookkeeping claims. -/

/-- Tile coordinate key. -/
abbrev Coord := ℤ × ℤ

/-- The fields of the terrain mesh object that the manager reads back
(`mesh.lodLevel`, `mesh.heightData`). -/
structure TileMesh where
  lodLevel : ℕ
  heightData : Grid

/-- JS `Map.get`: the value stored at a key, if any. -/
def storeLookup {β : Type} (l : List (Coord × β)) (k : Coord) : Option β :=
  match l with
  | [] => none
  | (a, m) :: t => if a = k then some m else storeLookup t k

/-- JS `Map.set`: replace in place if the key exists, else append. -/
def storeSet (l : List (Coord × TileMesh)) (k : Coord) (m : TileMesh) :
    List (Coord × TileMesh) :=
  if (storeLookup l k).isSome then l.map fun p => if p.1 = k then (k, m) else p
  else l ++ [(k, m)]

/-- JS `Map.delete`. -/
def storeDelete (l : List (Coord × TileMesh)) (k : Coord) : List (Coord × TileMesh) :=
  l.filter fun p => p.1 ≠ k

/-- JS `Set.add`. -/
def setAdd (l : List Coord) (k : Coord) : List Coord :=
  if k ∈ l then l else l ++ [k]

/-- JS `Set.delete`. -/
def setDelete (l : List Coord) (k : Coord) : List Coord := l.erase k

/-- Manager state: the resident-tile store and the in-progress set. -/
structure ChunkState where
  loaded : List (Coord × TileMesh)
  inProgress : List Coord

/-- The empty initial state (before `initialize()` runs its loads). -/
def initialState : ChunkState := { loaded := [], inProgress := [] }

/-- `BLEND_FACTOR` from `matchChunkEdges`. -/
def BLEND_FACTOR : ℚ := 1 / 2

/-- The up-to-four resident neighbor grids consulted by `loadChunk`. -/
structure Neighbors where
  north : Option Grid
  south : Option Grid
  east : Option Grid
  west : Option Grid

/-- Neighbor lookup in `loadChunk` (north = z+1, south = z-1, east = x+1,
west = x-1). -/
def neighborsOf (l : List (Coord × TileMesh)) (cx cz : ℤ) : Neighbors :=
  { north := (storeLookup l (cx, cz + 1)).map TileMesh.heightData
    south := (storeLookup l (cx, cz - 1)).map TileMesh.heightData
    east := (storeLookup l (cx + 1, cz)).map TileMesh.heightData
    west := (storeLookup l (cx - 1, cz)).map TileMesh.heightData }

/-- North-edge sweep of `matchChunkEdges`: row `res-1` cells are blended
with the neighbor's row-0 samples. -/
def blendNorth (res : ℕ) (nb : Grid) (g : Grid) : Grid := fun i =>
  if (res - 1) * res ≤ i ∧ i < res * res then
    g i * (1 - BLEND_FACTOR) + nb (i - (res - 1) * res) * BLEND_FACTOR
  else g i

/-- South-edge sweep: row 0 cells blended with the neighbor's row `res-1`. -/
def blendSouth (res : ℕ) (nb : Grid) (g : Grid) : Grid := fun i =>
  if i < res then
    g i * (1 - BLEND_FACTOR) + nb ((res - 1) * res + i) * BLEND_FACTOR
  else g i

/-- East-edge sweep: column `res-1` cells blended with the neighbor's
column-0 samples (`eastIdx = z * res`). -/
def blendEast (res : ℕ) (nb : Grid) (g : Grid) : Grid := fun i =>
  if i % res = res - 1 ∧ i < res * res then
    g i * (1 - BLEND_FACTOR) + nb (i - (res - 1)) * BLEND_FACTOR
  else g i

/-- West-edge sweep: column 0 cells blended with the neighbor's column
`res-1` (`westIdx = z * res + (res - 1)`). -/
def blendWest (res : ℕ) (nb : Grid) (g : Grid) : Grid := fun i =>
  if i % res = 0 ∧ i < res * res then
    g i * (1 - BLEND_FACTOR) + nb (i + (res - 1)) * BLEND_FACTOR
  else g i

/-- Northeast corner extra smoothing (requires north and east neighbors). -/
def cornerNE (res : ℕ) (nN nE : Grid) (g : Grid) : Grid := fun i =>
  if i = (res - 1) * res + (res - 1) then
    (g i + nN (res - 1) + nE ((res - 1) * res)) / 3
  else g i

/-- Northwest corner extra smoothing. -/
def cornerNW (res : ℕ) (nN nW : Grid) (g : Grid) : Grid := fun i =>
  if i = (res - 1) * res then
    (g i + nN 0 + nW ((res - 1) * res + (res - 1))) / 3
  else g i

/-- Southeast corner extra smoothing. -/
def cornerSE (res : ℕ) (nS nE : Grid) (g : Grid) : Grid := fun i =>
  if i = res - 1 then
    (g i + nS ((res - 1) * res + (res - 1)) + nE 0) / 3
  else g i

/-- Southwest corner extra smoothing. -/
def cornerSW (res : ℕ) (nS nW : Grid) (g : Grid) : Grid := fun i =>
  if i = 0 then
    (g i + nS ((res - 1) * res) + nW (res - 1)) / 3
  else g i

/-- North sweep of `matchChunkEdges`, applied when a north neighbor is
resident. -/
def stageN (res : ℕ) (nb : Neighbors) (g : Grid) : Grid :=
  match nb.north with | some nN => blendNorth res nN g | none => g

/-- South sweep. -/
def stageS (res : ℕ) (nb : Neighbors) (g : Grid) : Grid :=
  match nb.south with | some nS => blendSouth res nS g | none => g

/-- East sweep. -/
def stageE (res : ℕ) (nb : Neighbors) (g : Grid) : Grid :=
  match nb.east with | some nE => blendEast res nE g | none => g

/-- West sweep. -/
def stageW (res : ℕ) (nb : Neighbors) (g : Grid) : Grid :=
  match nb.west with | some nW => blendWest res nW g | none => g

/-- Northeast corner fix-up (requires north and east). -/
def stageNE (res : ℕ) (nb : Neighbors) (g : Grid) : Grid :=
  match nb.north, nb.east with
  | some nN, some nE => cornerNE res nN nE g
  | _, _ => g

/-- Northwest corner fix-up. -/
def stageNW (res : ℕ) (nb : Neighbors) (g : Grid) : Grid :=
  match nb.north, nb.west with
  | some nN, some nW => cornerNW res nN nW g
  | _, _ => g

/-- Southeast corner fix-up. -/
def stageSE (res : ℕ) (nb : Neighbors) (g : Grid) : Grid :=
  match nb.south, nb.east with
  | some nS, some nE => cornerSE res nS nE g
  | _, _ => g

/-- Southwest corner fix-up. -/
def stageSW (res : ℕ) (nb : Neighbors) (g : Grid) : Grid :=
  match nb.south, nb.west with
  | some nS, some nW => cornerSW res nS nW g
  | _, _ => g

/-- `matchChunkEdges(heightmapData, neighbors)`: the four edge sweeps in
source order (north, south, east, west) followed by the four corner
fix-ups, each conditional on the required neighbors; all writes target
the new tile's grid.  Each source loop writes a set of cells disjoint
from the cells it reads within the same loop, so every sweep is a
pointwise map of the grid produced by the previous sweep. -/
def matchChunkEdges (res : ℕ) (g : Grid) (nb : Neighbors) : Grid :=
  stageSW res nb (stageSE res nb (stageNW res nb (stageNE res nb
    (stageW res nb (stageE res nb (stageS res nb (stageN res nb g)))))))

/-- The early-return guard of `loadChunk`:
`existingMesh && !isLODUpdate && existingMesh.lodLevel <= lodLevel`. -/
def loadChunkGuard (existing : Option TileMesh) (lodLevel : ℕ)
    (isLODUpdate : Bool) : Bool :=
  match existing with
  | some m => !isLODUpdate && m.lodLevel ≤ lodLevel
  | none => false

/-- part_001 `loadChunk(chunkX, chunkZ, lodLevel, isLODUpdate)`.  After the
guard, the coordinate is added to `chunksInProgress`; the `try` block
generates the grid (`raw`), stitches against resident neighbors when any
exist, stores the mesh and removes the in-progress mark; the `catch`
block (modelled by `raw = none`) removes the in-progress mark and
returns `null` without touching the store. -/
def loadChunk (raw : Option Grid) (resolution : ℕ) (s : ChunkState)
    (cx cz : ℤ) (lodLevel : ℕ) (isLODUpdate : Bool) : ChunkState × Option TileMesh :=
  let key : Coord := (cx, cz)
  let existing := storeLookup s.loaded key
  if loadChunkGuard existing lodLevel isLODUpdate then (s, existing)
  else
    let inprog := setAdd s.inProgress key
    match raw with
    | none => ({ loaded := s.loaded, inProgress := setDelete inprog key }, none)
    | some g =>
      let nbs := neighborsOf s.loaded cx cz
      let anyNb := nbs.north.isSome || nbs.south.isSome || nbs.east.isSome || nbs.west.isSome
      let heights := if anyNb then matchChunkEdges resolution g nbs else g
      let mesh : TileMesh := { lodLevel := lodLevel, heightData := heights }
      ({ loaded := storeSet s.loaded key mesh, inProgress := setDelete inprog key },
        some mesh)

/-- The state of the manager between `chunksInProgress.add` (line 331) and
the matching delete: the intermediate state inside a running
`loadChunk`. -/
def loadChunkMid (s : ChunkState) (cx cz : ℤ) (lodLevel : ℕ)
    (isLODUpdate : Bool) : ChunkState :=
  if loadChunkGuard (storeLookup s.loaded (cx, cz)) lodLevel isLODUpdate then s
  else { s with inProgress := setAdd s.inProgress (cx, cz) }

/-- `unloadChunk(chunkKey)`: dispose and remove when resident. -/
def unloadChunk (s : ChunkState) (key : Coord) : ChunkState :=
  if (storeLookup s.loaded key).isSome then
    { s with loaded := storeDelete s.loaded key }
  else s

/-- The mesh loadChunk stores on a successful generation: the requested
LOD and the (stitched, when any neighbor is resident) height grid. -/
def loadChunkStoredMesh (g : Grid) (res : ℕ) (loaded : List (Coord × TileMesh))
    (cx cz : ℤ) (lod : ℕ) : TileMesh :=
  { lodLevel := lod
    heightData :=
      let nbs := neighborsOf loaded cx cz
      if nbs.north.isSome || nbs.south.isSome || nbs.east.isSome || nbs.west.isSome then
        matchChunkEdges res g nbs
      else g }

/-- chunkManager.js `loadChunk`: same guard and bookkeeping but no
`matchChunkEdges` call and no `try`/`catch` — when generation throws
(`raw = none`) the exception propagates and the function unwinds with the
coordinate still in `chunksInProgress`. -/
def cmLoadChunk (raw : Option Grid) (s : ChunkState) (cx cz : ℤ)
    (lodLevel : ℕ) (isLODUpdate : Bool) : ChunkState × Option TileMesh :=
  let key : Coord := (cx, cz)
  let existing := storeLookup s.loaded key
  if loadChunkGuard existing lodLevel isLODUpdate then (s, existing)
  else
    let inprog := setAdd s.inProgress key
    match raw with
    | none => ({ loaded := s.loaded, inProgress := inprog }, none)
    | some g =>
      let mesh : TileMesh := { lodLevel := lodLevel, heightData := g }
      ({ loaded := storeSet s.loaded key mesh, inProgress := setDelete inprog key },
        some mesh)

/-- States reachable through completed operations.  `update`,
`initialize`, `loadChunksAroundPosition`, `updateChunkLOD` and
`updateChunkLODLevel` only mutate the two stores through `loadChunk` and
`unloadChunk` calls, so closure under those two primitives covers every
operation sequence of the manager. -/
inductive ReachCompleted : ChunkState → Prop
  | init : ReachCompleted initialState
  | load (raw : Option Grid) (resolution : ℕ) (cx cz : ℤ) (lodLevel : ℕ)
      (isLODUpdate : Bool) {s : ChunkState} :
      ReachCompleted s → ReachCompleted (loadChunk raw resolution s cx cz lodLevel isLODUpdate).1
  | unload (key : Coord) {s : ChunkState} :
      ReachCompleted s → ReachCompleted (unloadChunk s key)

/-- States reachable including the intermediate states inside a running
`loadChunk` (after the in-progress add, before the store/delete). -/
inductive ReachAny : ChunkState → Prop
  | init : ReachAny initialState
  | load (raw : Option Grid) (resolution : ℕ) (cx cz : ℤ) (lodLevel : ℕ)
      (isLODUpdate : Bool) {s : ChunkState} :
      ReachAny s → ReachAny (loadChunk raw resolution s cx cz lodLevel isLODUpdate).1
  | unload (key : Coord) {s : ChunkState} :
      ReachAny s → ReachAny (unloadChunk s key)
  | mid (cx cz : ℤ) (lodLevel : ℕ) (isLODUpdate : Bool) {s : ChunkState} :
      ReachAny s → ReachAny (loadChunkMid s cx cz lodLevel isLODUpdate)

/-- part_001 manager `getHeightAtPosition(worldX, worldZ)`: delegates to
the heightmap generator with `config.terrain.maxHeight`; takes the full
manager state to witness that the body consults neither store. -/
def managerGetHeightAtPosition (_s : ChunkState) (st : NoiseState)
    (maxHeight worldX worldZ : ℚ) : ℚ :=
  hmGetHeightAtPosition st worldX worldZ maxHeight

/-! ## Helper lemmas -/

/-- Length of a `flatMap` whose blocks all have the same length. -/
theorem length_flatMap_const {α β : Type} (l : List α) (f : α → List β) (c : ℕ)
    (h : ∀ a ∈ l, (f a).length = c) : (l.flatMap f).length = l.length * c := by
  induction l with
  | nil => simp
  | cons a t ih =>
    simp only [List.flatMap_cons, List.length_append, List.length_cons,
      h a (List.mem_cons_self a t), ih fun b hb => h b (List.mem_cons_of_mem a hb)]
    ring

/-- The decimation loop `for v = 0; v < n; v += k` visits `(n + k - 1) / k`
values. -/
theorem length_filter_mod (k : ℕ) (hk : 0 < k) :
    ∀ n : ℕ, ((List.range n).filter fun v => v % k = 0).length = (n + k - 1) / k := by
  intro n
  induction n with
  | zero => simp [Nat.div_eq_of_lt, hk, Nat.sub_lt hk]
  | succ n ih =>
    rw [List.range_succ, List.filter_append, List.length_append, ih]
    have hnk : n + 1 + k - 1 = (n + k - 1) + 1 := by omega
    rw [hnk, Nat.succ_div]
    have hdvd : (k ∣ n + k - 1 + 1) ↔ (n % k = 0) := by
      have heq : n + k - 1 + 1 = n + k := by omega
      rw [heq, Nat.dvd_add_self_right]
      exact Nat.dvd_iff_mod_eq_zero
    by_cases hmod : n % k = 0
    · simp [hmod, hdvd.mpr hmod]
    · have hnd : ¬ k ∣ n + k - 1 + 1 := fun h => hmod (hdvd.mp h)
      simp [hmod, hnd]

/-- The stride-`k` loop count equals the source's
`Math.floor((n - 1) / k) + 1` for nonempty ranges. -/
theorem stride_count_eq (k n : ℕ) (hk : 0 < k) (hn : 1 ≤ n) :
    ((List.range n).filter fun v => v % k = 0).length = (n - 1) / k + 1 := by
  rw [length_filter_mod k hk n]
  have h1 : n + k - 1 = (n - 1) + k := by omega
  rw [h1, Nat.add_div_right _ hk]

/-- `Map.get` misses exactly the keys that are not in the key list. -/
theorem lookup_eq_none_not_mem {β : Type} (l : List (Coord × β)) (k : Coord)
    (h : storeLookup l k = none) : k ∉ l.map Prod.fst := by
  induction l with
  | nil => simp
  | cons a t ih =>
    obtain ⟨a1, a2⟩ := a
    by_cases hak : a1 = k
    · simp [storeLookup, hak] at h
    · simp only [storeLookup, if_neg hak] at h
      simp only [List.map_cons, List.mem_cons]
      rintro (he | hm)
      · exact hak he.symm
      · exact ih h hm

/-! ## Claim C4 — streaming distance metric -/

/-- C4 counterexample: the claim says the distance the streaming manager
uses for load candidate selection is Chebyshev `max(|Δx|, |Δz|)`, but the
`src/terrain/chunkManager.js` variant computes the Manhattan sum at that
site: at tile (1,1) with viewer tile (0,0) it yields 2 while the
Chebyshev distance is 1. -/
theorem c4_counterexample :
    cmLoadDistance 1 1 0 0 = 2 ∧ cmLoadDistance 1 1 0 0 ≠ chebyshevDistance 1 1 0 0 := by
  constructor <;> decide

/-- C4 amended: the part_001 chunk manager uses the Chebyshev distance at
all of its sites — load candidate selection, LOD assignment, unload
selection and capacity eviction, and a key is selected for unload exactly
when its Chebyshev distance exceeds `unloadDistance` — while the
chunkManager.js variant uses the Manhattan distance `|Δx| + |Δz|` at all
of its sites. -/
theorem c4_amended :
    (∀ x z cx cz : ℤ,
      p1LoadDistance x z cx cz = chebyshevDistance x z cx cz ∧
      p1UnloadDistance x z cx cz = chebyshevDistance x z cx cz ∧
      p1LODDistance x z cx cz = chebyshevDistance x z cx cz ∧
      p1FurthestDistance x z cx cz = chebyshevDistance x z cx cz) ∧
    (∀ x z cx cz : ℤ,
      cmLoadDistance x z cx cz = |x - cx| + |z - cz| ∧
      cmUnloadDistance x z cx cz = cmLoadDistance x z cx cz ∧
      cmLODDistance x z cx cz = cmLoadDistance x z cx cz) ∧
    (∀ (d cx cz : ℤ) (keys : List (ℤ × ℤ)) (k : ℤ × ℤ),
      k ∈ p1UnloadSelect d cx cz keys ↔
        k ∈ keys ∧ d < chebyshevDistance k.1 k.2 cx cz) := by
  refine ⟨fun x z cx cz => ⟨rfl, rfl, rfl, rfl⟩, fun x z cx cz => ⟨rfl, rfl, rfl⟩,
    fun d cx cz keys k => ?_⟩
  simp [p1UnloadSelect, List.mem_filter, p1UnloadDistance, chebyshevDistance]

/-! ## Claim C5 — LOD decimation -/

/-- C5: with adaptive LOD enabled, building at LOD `L` uses skip factor
`2^L`, samples `R' = ⌊(R-1)/2^L⌋ + 1` vertices per edge, and produces
`2·(R'-1)²` triangles (the `lodLevel = 0` branch returns the full-
resolution data, which satisfies the same formulas with skip 1). -/
theorem c5_confirmed (resolution lodLevel : ℕ) (hres : 2 ≤ resolution) :
    skipFactor lodLevel = 2 ^ lodLevel ∧
    (optimizeVertexData true (createVertexData resolution) resolution lodLevel).verts.length =
      newResolution resolution lodLevel * newResolution resolution lodLevel ∧
    triangleCount (optimizeVertexData true (createVertexData resolution) resolution lodLevel) =
      2 * (newResolution resolution lodLevel - 1) ^ 2 := by
  have hk : 0 < skipFactor lodLevel := Nat.pos_pow_of_pos lodLevel (by norm_num)
  have hn : 1 ≤ resolution := le_trans (by norm_num) hres
  have hlen : ∀ rowLen : ℕ, (gridIndices rowLen).length = (rowLen - 1) * (rowLen - 1) * 6 := by
    intro rowLen
    have hrow : ∀ z ∈ List.range (rowLen - 1),
        ((List.range (rowLen - 1)).flatMap fun x => quadIndices rowLen z x).length =
          (rowLen - 1) * 6 := by
      intro z _
      rw [length_flatMap_const (List.range (rowLen - 1))
        (fun x => quadIndices rowLen z x) 6 (fun x _ => rfl), List.length_range]
    rw [gridIndices, length_flatMap_const _ _ ((rowLen - 1) * 6) hrow,
      List.length_range, ← Nat.mul_assoc]
  have hfull : (fullCoords resolution).length = resolution * resolution := by
    have hrow : ∀ z ∈ List.range resolution,
        ((List.range resolution).map fun x => (z, x)).length = resolution := by
      intro z _
      rw [List.length_map, List.length_range]
    rw [fullCoords, length_flatMap_const _ _ resolution hrow, List.length_range]
  have hsamp : (sampledCoords resolution (skipFactor lodLevel)).length =
      newResolution resolution lodLevel * newResolution resolution lodLevel := by
    have hrow : ∀ z ∈ (List.range resolution).filter fun v => v % skipFactor lodLevel = 0,
        (((List.range resolution).filter fun v => v % skipFactor lodLevel = 0).map
          fun x => (z, x)).length = newResolution resolution lodLevel := by
      intro z _
      rw [List.length_map, stride_count_eq _ _ hk hn, newResolution]
    rw [sampledCoords, length_flatMap_const _ _ (newResolution resolution lodLevel) hrow,
      stride_count_eq _ _ hk hn, newResolution]
  have horig : optimizeVertexData true (createVertexData resolution) resolution 0 =
      createVertexData resolution := by
    simp [optimizeVertexData]
  have hnr0 : newResolution resolution 0 = resolution := by
    simp only [newResolution, skipFactor, pow_zero, Nat.div_one]
    omega
  refine ⟨rfl, ?_, ?_⟩
  · by_cases h0 : lodLevel = 0
    · subst h0
      rw [horig, hnr0]
      exact hfull
    · rw [show optimizeVertexData true (createVertexData resolution) resolution lodLevel =
          { verts := sampledCoords resolution (skipFactor lodLevel)
            indices := gridIndices (newResolution resolution lodLevel) } by
        simp [optimizeVertexData, h0]]
      exact hsamp
  · by_cases h0 : lodLevel = 0
    · subst h0
      rw [horig, hnr0, triangleCount, createVertexData, hlen resolution, pow_two]
      omega
    · rw [show optimizeVertexData true (createVertexData resolution) resolution lodLevel =
          { verts := sampledCoords resolution (skipFactor lodLevel)
            indices := gridIndices (newResolution resolution lodLevel) } by
        simp [optimizeVertexData, h0]]
      rw [triangleCount, hlen (newResolution resolution lodLevel), pow_two]
      omega

/-- C5 witness: resolution 33 at LOD 2 decimates to 9 vertices per edge
and 128 triangles, with skip factor 4. -/
theorem c5_witness :
    (2 ≤ 33 ∧ skipFactor 2 = 2 ^ 2 ∧
      (optimizeVertexData true (createVertexData 33) 33 2).verts.length =
        newResolution 33 2 * newResolution 33 2 ∧
      triangleCount (optimizeVertexData true (createVertexData 33) 33 2) =
        2 * (newResolution 33 2 - 1) ^ 2) ∧
    skipFactor 2 = 4 ∧ newResolution 33 2 = 9 ∧
    triangleCount (optimizeVertexData true (createVertexData 33) 33 2) = 128 :=
  ⟨⟨by norm_num, c5_confirmed 33 2 (by norm_num)⟩, by decide, by decide, by decide⟩

/-! ## Claim C7 — noise determinism -/

/-- C7: `getFractalNoise` is a pure function of the coordinates and the
(seed, scale, octaves, persistence, lacunarity) state fixed at
construction.  The only ambient input of the generator is the
`Math.random()` draw taken when the configured seed is falsy; for any
truthy (non-zero) seed, evaluations in different runs (different ambient
draws `r`, `r'`) agree exactly, and repeated evaluation in one run is
reflexivity. -/
theorem c7_confirmed (cfg : NoiseConfig) (r r' x z : ℚ) (hseed : cfg.seed ≠ 0) :
    getFractalNoise (createNoiseGenerator cfg r) x z =
      getFractalNoise (createNoiseGenerator cfg r') x z := by
  have hst : createNoiseGenerator cfg r = createNoiseGenerator cfg r' := by
    simp [createNoiseGenerator, hseed]
  rw [hst]

/-- C7 witness: the repository seed 42 is truthy, and the two runs with
ambient draws 1/4 and 3/4 produce the same fractal value at (1, 1). -/
theorem c7_witness :
    repoNoiseConfig.seed ≠ 0 ∧
    getFractalNoise (createNoiseGenerator repoNoiseConfig (1 / 4)) 1 1 =
      getFractalNoise (createNoiseGenerator repoNoiseConfig (3 / 4)) 1 1 :=
  ⟨by norm_num [repoNoiseConfig],
    c7_confirmed repoNoiseConfig (1 / 4) (3 / 4) 1 1 (by norm_num [repoNoiseConfig])⟩

/-! ## Claim C8 — point elevation query reads no tile state -/

/-- C8: the manager's `getHeightAtPosition` agrees across arbitrary
manager states (it reads neither the resident store nor the in-progress
set, and never fails for missing data — it is a total function), and its
value is exactly the noise-field composition
`(0.6·F(0.005·w) + 0.3·F(0.01·w) + 0.1·F(0.05·w)) · maxHeight`. -/
theorem c8_confirmed (s s' : ChunkState) (st : NoiseState) (maxHeight wx wz : ℚ) :
    managerGetHeightAtPosition s st maxHeight wx wz =
      managerGetHeightAtPosition s' st maxHeight wx wz ∧
    managerGetHeightAtPosition s st maxHeight wx wz =
      ((6 / 10) * getFractalNoise st (wx * (5 / 1000)) (wz * (5 / 1000)) +
       (3 / 10) * getFractalNoise st (wx * (1 / 100)) (wz * (1 / 100)) +
       (1 / 10) * getFractalNoise st (wx * (5 / 100)) (wz * (5 / 100))) * maxHeight :=
  ⟨rfl, rfl⟩

/-! ## State-machine helper lemmas -/

theorem storeSet_keys_of_some {β : Type} (l : List (Coord × β)) (k : Coord) (m : β)
    (h : (storeLookup l k).isSome) :
    (if (storeLookup l k).isSome then l.map fun p => if p.1 = k then (k, m) else p
     else l ++ [(k, m)]).map Prod.fst = l.map Prod.fst := by
  rw [if_pos h, List.map_map]
  refine List.map_congr_left fun p _ => ?_
  by_cases hp : p.1 = k
  · simp [hp]
  · simp [hp]

/-- `Map.set` never changes the key sequence when the key is present, and
appends the key otherwise; either way key uniqueness is preserved. -/
theorem storeSet_keys_nodup (l : List (Coord × TileMesh)) (k : Coord) (m : TileMesh)
    (h : (l.map Prod.fst).Nodup) : ((storeSet l k m).map Prod.fst).Nodup := by
  unfold storeSet
  by_cases hl : (storeLookup l k).isSome
  · rw [storeSet_keys_of_some l k m hl]
    exact h
  · rw [if_neg hl]
    have hk : k ∉ l.map Prod.fst := by
      apply lookup_eq_none_not_mem
      cases hc : storeLookup l k with
      | none => rfl
      | some v => rw [hc] at hl; simp at hl
    simp only [List.map_append, List.map_cons, List.map_nil]
    rw [List.nodup_append]
    refine ⟨h, List.nodup_singleton k, fun a ha hb => ?_⟩
    rw [List.mem_singleton] at hb
    exact hk (hb ▸ ha)

theorem storeDelete_keys_nodup (l : List (Coord × TileMesh)) (k : Coord)
    (h : (l.map Prod.fst).Nodup) : ((storeDelete l k).map Prod.fst).Nodup :=
  List.Nodup.sublist (List.Sublist.map Prod.fst (List.filter_sublist l)) h

/-- Erasing a freshly appended element recovers the original list. -/
theorem erase_append_not_mem (l : List Coord) (k : Coord) (h : k ∉ l) :
    (l ++ [k]).erase k = l := by
  induction l with
  | nil => simp
  | cons a t ih =>
    have ha : ¬(a = k) := fun he => h (he ▸ List.mem_cons_self a t)
    rw [List.cons_append, List.erase_cons_tail (by simp [beq_eq_false_iff_ne.mpr ha]),
      ih fun hm => h (List.mem_cons_of_mem a hm)]

/-- `Set.add` then `Set.delete` of a key not previously present is the
identity. -/
theorem setDelete_setAdd (l : List Coord) (k : Coord) (h : k ∉ l) :
    setDelete (setAdd l k) k = l := by
  rw [setAdd, if_neg h, setDelete, erase_append_not_mem l k h]

/-- Replacing the entry of a different key does not affect a lookup. -/
theorem lookup_map_replace (l : List (Coord × TileMesh)) (k k' : Coord) (m : TileMesh)
    (hne : k ≠ k') :
    storeLookup (l.map fun p => if p.1 = k' then (k', m) else p) k = storeLookup l k := by
  induction l with
  | nil => rfl
  | cons a t ih =>
    obtain ⟨a1, a2⟩ := a
    by_cases hak : a1 = k'
    · subst hak
      have hh : (if (a1, a2).1 = a1 then ((a1, m) : Coord × TileMesh) else (a1, a2)) =
          (a1, m) := by simp
      rw [List.map_cons, hh]
      have hna : ¬(a1 = k) := fun h => hne (h ▸ rfl)
      simp only [storeLookup, if_neg hna]
      exact ih
    · have hh : (if (a1, a2).1 = k' then ((k', m) : Coord × TileMesh) else (a1, a2)) =
          (a1, a2) := by simp [hak]
      rw [List.map_cons, hh]
      by_cases hka : a1 = k
      · simp [storeLookup, hka]
      · simp only [storeLookup, if_neg hka]
        exact ih

/-- Appending an entry for a different key does not affect a lookup. -/
theorem lookup_append_single (l : List (Coord × TileMesh)) (k k' : Coord) (m : TileMesh)
    (hne : k ≠ k') : storeLookup (l ++ [(k', m)]) k = storeLookup l k := by
  induction l with
  | nil =>
    have hna : ¬(k' = k) := fun h => hne h.symm
    simp [storeLookup, hna]
  | cons a t ih =>
    obtain ⟨a1, a2⟩ := a
    by_cases hka : a1 = k
    · simp [storeLookup, hka]
    · simp only [List.cons_append, storeLookup, if_neg hka]
      exact ih

/-- `Map.set` with a different key does not affect lookups. -/
theorem lookup_storeSet_ne (l : List (Coord × TileMesh)) (k k' : Coord) (m : TileMesh)
    (hne : k ≠ k') : storeLookup (storeSet l k' m) k = storeLookup l k := by
  unfold storeSet
  by_cases hl : (storeLookup l k').isSome
  · rw [if_pos hl]
    exact lookup_map_replace l k k' m hne
  · rw [if_neg hl]
    exact lookup_append_single l k k' m hne

/-- `loadChunk` with a passing guard is the identity on the state and
returns the stored mesh. -/
theorem loadChunk_guard_true (raw : Option Grid) (res : ℕ) (s : ChunkState)
    (cx cz : ℤ) (lod : ℕ) (b : Bool)
    (hg : loadChunkGuard (storeLookup s.loaded (cx, cz)) lod b = true) :
    loadChunk raw res s cx cz lod b = (s, storeLookup s.loaded (cx, cz)) := by
  simp [loadChunk, hg]

/-- `loadChunk` on a failing generation (`raw = none`, the catch path):
the store is untouched and the in-progress mark is added then deleted. -/
theorem loadChunk_state_err (res : ℕ) (s : ChunkState) (cx cz : ℤ) (lod : ℕ) (b : Bool)
    (hg : loadChunkGuard (storeLookup s.loaded (cx, cz)) lod b = false) :
    loadChunk none res s cx cz lod b =
      ({ loaded := s.loaded,
         inProgress := setDelete (setAdd s.inProgress (cx, cz)) (cx, cz) }, none) := by
  simp [loadChunk, hg]

/-- `loadChunk` on a successful generation stores one mesh at the key and
clears the in-progress mark. -/
theorem loadChunk_state_ok (g : Grid) (res : ℕ) (s : ChunkState) (cx cz : ℤ)
    (lod : ℕ) (b : Bool)
    (hg : loadChunkGuard (storeLookup s.loaded (cx, cz)) lod b = false) :
    loadChunk (some g) res s cx cz lod b =
      ({ loaded := storeSet s.loaded (cx, cz) (loadChunkStoredMesh g res s.loaded cx cz lod),
         inProgress := setDelete (setAdd s.inProgress (cx, cz)) (cx, cz) },
       some (loadChunkStoredMesh g res s.loaded cx cz lod)) := by
  simp [loadChunk, loadChunkStoredMesh, hg]

/-- Completed operations keep the in-progress set empty and the store keys
unique. -/
theorem reachCompleted_inv {s : ChunkState} (h : ReachCompleted s) :
    s.inProgress = [] ∧ (s.loaded.map Prod.fst).Nodup := by
  induction h with
  | init => exact ⟨rfl, by simp [initialState]⟩
  | load raw res cx cz lod b h ih =>
    rename_i s'
    obtain ⟨hip, hnd⟩ := ih
    by_cases hg : loadChunkGuard (storeLookup s'.loaded (cx, cz)) lod b = true
    · rw [loadChunk_guard_true raw res s' cx cz lod b hg]
      exact ⟨hip, hnd⟩
    · have hg' : loadChunkGuard (storeLookup s'.loaded (cx, cz)) lod b = false :=
        Bool.not_eq_true _ ▸ eq_false_of_ne_true hg
      cases raw with
      | none =>
        rw [loadChunk_state_err res s' cx cz lod b hg']
        exact ⟨by rw [hip, setDelete_setAdd [] _ (List.not_mem_nil _)], hnd⟩
      | some g =>
        rw [loadChunk_state_ok g res s' cx cz lod b hg']
        exact ⟨by rw [hip, setDelete_setAdd [] _ (List.not_mem_nil _)],
          storeSet_keys_nodup s'.loaded _ _ hnd⟩
  | unload key h ih =>
    rename_i s'
    obtain ⟨hip, hnd⟩ := ih
    unfold unloadChunk
    by_cases hk : (storeLookup s'.loaded key).isSome
    · rw [if_pos hk]
      exact ⟨hip, storeDelete_keys_nodup s'.loaded key hnd⟩
    · rw [if_neg hk]
      exact ⟨hip, hnd⟩

/-! ## Claim C3 — no coordinate both resident and in-progress -/

/-- C3 counterexample: with tile (0,0) resident at LOD 3, a `loadChunk`
for LOD 0 passes the early-return check (3 ≤ 0 fails), so the coordinate
is added to the in-progress set while still in the resident store: the
intermediate state inside that `loadChunk` holds (0,0) in both
structures. -/
theorem c3_counterexample :
    ReachAny (loadChunkMid
      (loadChunk (some fun _ => 0) 33 initialState 0 0 3 false).1 0 0 0 false) ∧
    ((0, 0) : Coord) ∈ (loadChunkMid
      (loadChunk (some fun _ => 0) 33 initialState 0 0 3 false).1 0 0 0 false).loaded.map Prod.fst ∧
    ((0, 0) : Coord) ∈ (loadChunkMid
      (loadChunk (some fun _ => 0) 33 initialState 0 0 3 false).1 0 0 0 false).inProgress :=
  ⟨ReachAny.mid 0 0 0 false (ReachAny.load (some fun _ => 0) 33 0 0 3 false ReachAny.init),
    by decide, by decide⟩

/-- C3 amended: in every state reachable through completed operations
(initialization, update passes, completed `loadChunk`, LOD re-levels and
unloads), no coordinate is simultaneously a key of `loadedChunks` and a
member of `chunksInProgress`, and no key is duplicated in the store; the
invariant does not extend to the intermediate states inside a `loadChunk`
whose guard passes while the coordinate is already resident (a LOD
upgrade), where the coordinate is briefly in both. -/
theorem c3_amended (s : ChunkState) (h : ReachCompleted s) :
    (∀ k : Coord, ¬(k ∈ s.loaded.map Prod.fst ∧ k ∈ s.inProgress)) ∧
    (s.loaded.map Prod.fst).Nodup := by
  obtain ⟨hip, hnd⟩ := reachCompleted_inv h
  exact ⟨fun k ⟨_, hk2⟩ => by rw [hip] at hk2; exact List.not_mem_nil k hk2, hnd⟩

/-- C3 witness: the invariant instantiated after one completed load. -/
theorem c3_witness :
    (∀ k : Coord, ¬(k ∈ (loadChunk (some fun _ => 0) 33 initialState 0 0 3 false).1.loaded.map Prod.fst ∧
      k ∈ (loadChunk (some fun _ => 0) 33 initialState 0 0 3 false).1.inProgress)) ∧
    ((loadChunk (some fun _ => 0) 33 initialState 0 0 3 false).1.loaded.map Prod.fst).Nodup :=
  c3_amended _ (ReachCompleted.load (some fun _ => 0) 33 0 0 3 false ReachCompleted.init)

/-! ## Claim C6 — failed generation must not wedge the coordinate -/

/-- C6 counterexample: the claim says a generation failure is caught and
the coordinate removed from the in-progress set.  chunkManager.js (cited
by the claim) has no try/catch: after a failing fresh load of (0,0) the
coordinate is still in `chunksInProgress` (and not resident), so it is
never retried — `loadChunksAroundPosition` skips in-progress keys. -/
theorem c6_counterexample :
    ((0, 0) : Coord) ∈ (cmLoadChunk none initialState 0 0 0 false).1.inProgress ∧
    (cmLoadChunk none initialState 0 0 0 false).1.loaded = [] := by
  exact ⟨by decide, rfl⟩

/-- C6 amended: in the part_001 manager the catch path removes the
coordinate from the in-progress set and leaves the store untouched, so a
coordinate that was not resident ends in neither structure and is
eligible for retry; in the chunkManager.js variant the exception
propagates and the coordinate stays in the in-progress set. -/
theorem c6_amended (res : ℕ) (s : ChunkState) (cx cz : ℤ) (lod : ℕ) (b : Bool)
    (hres : storeLookup s.loaded (cx, cz) = none) (hip : (cx, cz) ∉ s.inProgress) :
    (loadChunk none res s cx cz lod b).1.loaded = s.loaded ∧
    (loadChunk none res s cx cz lod b).1.inProgress = s.inProgress ∧
    (loadChunk none res s cx cz lod b).2 = none ∧
    ((cx, cz) : Coord) ∉ (loadChunk none res s cx cz lod b).1.loaded.map Prod.fst ∧
    ((cx, cz) : Coord) ∉ (loadChunk none res s cx cz lod b).1.inProgress ∧
    (cmLoadChunk none s cx cz lod b).1.loaded = s.loaded ∧
    ((cx, cz) : Coord) ∈ (cmLoadChunk none s cx cz lod b).1.inProgress := by
  have hg : loadChunkGuard (storeLookup s.loaded (cx, cz)) lod b = false := by
    rw [hres]; rfl
  have herr := loadChunk_state_err res s cx cz lod b hg
  have hmem : ((cx, cz) : Coord) ∉ s.loaded.map Prod.fst :=
    lookup_eq_none_not_mem s.loaded (cx, cz) hres
  refine ⟨by rw [herr], ?_, by rw [herr], ?_, ?_, ?_, ?_⟩
  · rw [herr]
    exact setDelete_setAdd s.inProgress _ hip
  · rw [herr]
    exact hmem
  · rw [herr, setDelete_setAdd s.inProgress _ hip]
    exact hip
  · simp [cmLoadChunk, hg]
  · simp only [cmLoadChunk, hg, Bool.false_eq_true, if_false, setAdd]
    by_cases hin : ((cx, cz) : Coord) ∈ s.inProgress
    · rw [if_pos hin]
      exact hin
    · rw [if_neg hin]
      exact List.mem_append_right _ (List.mem_singleton_self _)

/-- C6 witness: a fresh failing load from the empty state in the part_001
manager leaves (0,0) in neither structure. -/
theorem c6_witness :
    (loadChunk none 33 initialState 0 0 0 false).1.loaded = initialState.loaded ∧
    (loadChunk none 33 initialState 0 0 0 false).1.inProgress = initialState.inProgress ∧
    (loadChunk none 33 initialState 0 0 0 false).2 = none ∧
    ((0, 0) : Coord) ∉ (loadChunk none 33 initialState 0 0 0 false).1.loaded.map Prod.fst ∧
    ((0, 0) : Coord) ∉ (loadChunk none 33 initialState 0 0 0 false).1.inProgress ∧
    (cmLoadChunk none initialState 0 0 0 false).1.loaded = initialState.loaded ∧
    ((0, 0) : Coord) ∈ (cmLoadChunk none initialState 0 0 0 false).1.inProgress :=
  c6_amended 33 initialState 0 0 0 false rfl (by simp [initialState])

/-! ## Claim C10 — loading an already-resident tile is a no-op -/

/-- C10: when the coordinate is resident with stored LOD at most the
requested LOD and the call is not a LOD update, `loadChunk` returns the
stored mesh and changes nothing — the early return fires before the
in-progress add, so the store, the in-progress set and the stored tile
are all untouched, making repeated load requests idempotent. -/
theorem c10_confirmed (raw : Option Grid) (res : ℕ) (s : ChunkState) (cx cz : ℤ)
    (lod : ℕ) (m : TileMesh) (hm : storeLookup s.loaded (cx, cz) = some m)
    (hle : m.lodLevel ≤ lod) :
    loadChunk raw res s cx cz lod false = (s, some m) := by
  have hg : loadChunkGuard (storeLookup s.loaded (cx, cz)) lod false = true := by
    rw [hm]
    simp [loadChunkGuard, hle]
  rw [loadChunk_guard_true raw res s cx cz lod false hg, hm]

/-- C10 witness: after loading (0,0) at LOD 3, a repeat request at LOD 5
returns the stored mesh and the state unchanged. -/
theorem c10_witness :
    loadChunk none 33 (loadChunk (some fun _ => 0) 33 initialState 0 0 3 false).1 0 0 5 false =
      ((loadChunk (some fun _ => 0) 33 initialState 0 0 3 false).1,
        some { lodLevel := 3, heightData := fun _ => 0 }) :=
  c10_confirmed none 33 _ 0 0 5 { lodLevel := 3, heightData := fun _ => 0 } rfl
    (by norm_num)

/-! ## matchChunkEdges cell-level lemmas -/

theorem mul_add_mod_lt (a b c : ℕ) (hc : c < b) : (a * b + c) % b = c := by
  simp [Nat.add_mod, Nat.mul_mod_left, Nat.mod_eq_of_lt hc]

theorem stageN_untouched (res : ℕ) (nb : Neighbors) (g : Grid) (i : ℕ)
    (h : ¬((res - 1) * res ≤ i ∧ i < res * res)) : stageN res nb g i = g i := by
  cases hn : nb.north <;> simp [stageN, hn, blendNorth, h]

theorem stageS_untouched (res : ℕ) (nb : Neighbors) (g : Grid) (i : ℕ)
    (h : ¬(i < res)) : stageS res nb g i = g i := by
  cases hn : nb.south <;> simp [stageS, hn, blendSouth, h]

theorem stageE_untouched (res : ℕ) (nb : Neighbors) (g : Grid) (i : ℕ)
    (h : ¬(i % res = res - 1 ∧ i < res * res)) : stageE res nb g i = g i := by
  cases hn : nb.east <;> simp [stageE, hn, blendEast, h]

theorem stageW_untouched (res : ℕ) (nb : Neighbors) (g : Grid) (i : ℕ)
    (h : ¬(i % res = 0 ∧ i < res * res)) : stageW res nb g i = g i := by
  cases hn : nb.west <;> simp [stageW, hn, blendWest, h]

theorem stageNE_untouched (res : ℕ) (nb : Neighbors) (g : Grid) (i : ℕ)
    (h : i ≠ (res - 1) * res + (res - 1)) : stageNE res nb g i = g i := by
  rcases hn : nb.north with _ | nN <;> rcases he : nb.east with _ | nE <;>
    simp [stageNE, hn, he, cornerNE, h]

theorem stageNW_untouched (res : ℕ) (nb : Neighbors) (g : Grid) (i : ℕ)
    (h : i ≠ (res - 1) * res) : stageNW res nb g i = g i := by
  rcases hn : nb.north with _ | nN <;> rcases hw : nb.west with _ | nW <;>
    simp [stageNW, hn, hw, cornerNW, h]

theorem stageSE_untouched (res : ℕ) (nb : Neighbors) (g : Grid) (i : ℕ)
    (h : i ≠ res - 1) : stageSE res nb g i = g i := by
  rcases hs : nb.south with _ | nS <;> rcases he : nb.east with _ | nE <;>
    simp [stageSE, hs, he, cornerSE, h]

theorem stageSW_untouched (res : ℕ) (nb : Neighbors) (g : Grid) (i : ℕ)
    (h : i ≠ 0) : stageSW res nb g i = g i := by
  rcases hs : nb.south with _ | nS <;> rcases hw : nb.west with _ | nW <;>
    simp [stageSW, hs, hw, cornerSW, h]

theorem sq_split (res : ℕ) (h : 1 ≤ res) : (res - 1) * res + res = res * res := by
  cases res with
  | zero => omega
  | succ n => simp [Nat.succ_sub_one]; ring

theorem stageN_hit (res : ℕ) (nb : Neighbors) (g : Grid) (nN : Grid) (x : ℕ)
    (hx : x < res) (hN : nb.north = some nN) :
    stageN res nb g ((res - 1) * res + x) =
      g ((res - 1) * res + x) * (1 - BLEND_FACTOR) + nN x * BLEND_FACTOR := by
  have hlt : (res - 1) * res + x < res * res := by
    rw [← sq_split res (by omega)]
    exact Nat.add_lt_add_left hx _
  have hc : (res - 1) * res ≤ (res - 1) * res + x ∧ (res - 1) * res + x < res * res :=
    ⟨Nat.le_add_right _ _, hlt⟩
  simp only [stageN, hN, blendNorth]
  rw [if_pos hc, Nat.add_sub_cancel_left]

theorem stageS_hit (res : ℕ) (nb : Neighbors) (g : Grid) (nS : Grid) (x : ℕ)
    (hx : x < res) (hS : nb.south = some nS) :
    stageS res nb g x = g x * (1 - BLEND_FACTOR) + nS ((res - 1) * res + x) * BLEND_FACTOR := by
  simp only [stageS, hS, blendSouth, if_pos hx]

theorem stageE_hit (res : ℕ) (nb : Neighbors) (g : Grid) (nE : Grid) (z : ℕ)
    (hz : z < res) (hres : 1 ≤ res) (hE : nb.east = some nE) :
    stageE res nb g (z * res + (res - 1)) =
      g (z * res + (res - 1)) * (1 - BLEND_FACTOR) + nE (z * res) * BLEND_FACTOR := by
  have hmod : (z * res + (res - 1)) % res = res - 1 :=
    mul_add_mod_lt z res (res - 1) (by omega)
  have hlt : z * res + (res - 1) < res * res := by
    have h1 : z * res + res ≤ res * res := by
      have : (z + 1) * res ≤ res * res := Nat.mul_le_mul_right res (by omega)
      calc z * res + res = (z + 1) * res := by ring
        _ ≤ res * res := this
    omega
  have hc : (z * res + (res - 1)) % res = res - 1 ∧ z * res + (res - 1) < res * res :=
    ⟨hmod, hlt⟩
  simp only [stageE, hE, blendEast]
  rw [if_pos hc, Nat.add_sub_cancel]

theorem stageW_hit (res : ℕ) (nb : Neighbors) (g : Grid) (nW : Grid) (z : ℕ)
    (hz : z < res) (hres : 1 ≤ res) (hW : nb.west = some nW) :
    stageW res nb g (z * res) =
      g (z * res) * (1 - BLEND_FACTOR) + nW (z * res + (res - 1)) * BLEND_FACTOR := by
  have hmod : (z * res) % res = 0 := Nat.mul_mod_left z res
  have hlt : z * res < res * res := by
    exact (Nat.mul_lt_mul_right (by omega : 0 < res)).mpr hz
  have hc : z * res % res = 0 ∧ z * res < res * res := ⟨hmod, hlt⟩
  simp only [stageW, hW, blendWest]
  rw [if_pos hc]

/-! ## Claim C9 — edge stitching writes and frame -/

/-- C9 counterexample: the claim says each boundary cell of the new tile
is set to `0.5·own + 0.5·neighbor`.  With a north and an east neighbor
both resident (own grid identically 0, north identically 12, east
identically 24, resolution 4) the shared northeast corner cell 15 ends at
((0.25·0 + 0.25·12 + 0.5·24) + 12 + 24) / 3 = 17, which is neither
0.5·0 + 0.5·12 = 6 (north formula) nor 0.5·0 + 0.5·24 = 12 (east
formula). -/
theorem c9_counterexample :
    matchChunkEdges 4 (fun _ => 0)
      { north := some fun _ => 12, south := none, east := some fun _ => 24, west := none } 15 = 17 ∧
    (17 : ℚ) ≠ 0 * (1 - BLEND_FACTOR) + 12 * BLEND_FACTOR ∧
    (17 : ℚ) ≠ 0 * (1 - BLEND_FACTOR) + 24 * BLEND_FACTOR := by
  refine ⟨?_, ?_, ?_⟩ <;> with_unfolding_all decide

/-- C9 amended: for every grid and neighbor configuration, each
*non-corner* boundary cell adjacent to a resident neighbor is set to
`0.5·own + 0.5·neighbor-sample` (corner cells instead receive the
sequence of edge blends followed by the corner three-way averages);
interior cells are unchanged; and `loadChunk` writes only the tile being
loaded — the stored entry of every other coordinate, including all
resident neighbors and their height grids, is unchanged. -/
theorem c9_amended (res : ℕ) (hres : 2 ≤ res) (g : Grid) (nb : Neighbors) :
    (∀ x, 0 < x → x + 1 < res → ∀ nN, nb.north = some nN →
      matchChunkEdges res g nb ((res - 1) * res + x) =
        g ((res - 1) * res + x) * (1 - BLEND_FACTOR) + nN x * BLEND_FACTOR) ∧
    (∀ x, 0 < x → x + 1 < res → ∀ nS, nb.south = some nS →
      matchChunkEdges res g nb x =
        g x * (1 - BLEND_FACTOR) + nS ((res - 1) * res + x) * BLEND_FACTOR) ∧
    (∀ z, 0 < z → z + 1 < res → ∀ nE, nb.east = some nE →
      matchChunkEdges res g nb (z * res + (res - 1)) =
        g (z * res + (res - 1)) * (1 - BLEND_FACTOR) + nE (z * res) * BLEND_FACTOR) ∧
    (∀ z, 0 < z → z + 1 < res → ∀ nW, nb.west = some nW →
      matchChunkEdges res g nb (z * res) =
        g (z * res) * (1 - BLEND_FACTOR) + nW (z * res + (res - 1)) * BLEND_FACTOR) ∧
    (∀ x z, 0 < x → x + 1 < res → 0 < z → z + 1 < res →
      matchChunkEdges res g nb (z * res + x) = g (z * res + x)) ∧
    (∀ (raw : Option Grid) (res2 : ℕ) (s : ChunkState) (cx cz : ℤ) (lod : ℕ) (b : Bool)
      (k : Coord), k ≠ (cx, cz) →
      storeLookup (loadChunk raw res2 s cx cz lod b).1.loaded k = storeLookup s.loaded k) := by
  have hbase : res ≤ (res - 1) * res := by
    calc res = 1 * res := (one_mul res).symm
      _ ≤ (res - 1) * res := Nat.mul_le_mul_right res (by omega)
  have hsq : (res - 1) * res + res = res * res := sq_split res (by omega)
  refine ⟨?_, ?_, ?_, ?_, ?_, ?_⟩
  · intro x hx0 hx1 nN hN
    have hxres : x < res := by omega
    have hmod : ((res - 1) * res + x) % res = x := mul_add_mod_lt _ _ _ hxres
    unfold matchChunkEdges
    rw [stageSW_untouched res nb _ _ (by omega),
      stageSE_untouched res nb _ _ (by omega),
      stageNW_untouched res nb _ _ (by omega),
      stageNE_untouched res nb _ _ (by omega),
      stageW_untouched res nb _ _ (fun hc => by omega),
      stageE_untouched res nb _ _ (fun hc => by omega),
      stageS_untouched res nb _ _ (by omega),
      stageN_hit res nb g nN x hxres hN]
  · intro x hx0 hx1 nS hS
    have hxres : x < res := by omega
    have hmod : x % res = x := Nat.mod_eq_of_lt hxres
    unfold matchChunkEdges
    rw [stageSW_untouched res nb _ _ (by omega),
      stageSE_untouched res nb _ _ (by omega),
      stageNW_untouched res nb _ _ (by omega),
      stageNE_untouched res nb _ _ (by omega),
      stageW_untouched res nb _ _ (fun hc => by omega),
      stageE_untouched res nb _ _ (fun hc => by omega),
      stageS_hit res nb _ nS x hxres hS,
      stageN_untouched res nb _ _ (by omega)]
  · intro z hz0 hz1 nE hE
    have hzres : z < res := by omega
    have hmod : (z * res + (res - 1)) % res = res - 1 :=
      mul_add_mod_lt z res (res - 1) (by omega)
    have hzlo : res ≤ z * res := by
      calc res = 1 * res := (one_mul res).symm
        _ ≤ z * res := Nat.mul_le_mul_right res (by omega)
    have hzhi : z * res + res ≤ (res - 1) * res := by
      calc z * res + res = (z + 1) * res := by ring
        _ ≤ (res - 1) * res := Nat.mul_le_mul_right res (by omega)
    unfold matchChunkEdges
    rw [stageSW_untouched res nb _ _ (by omega),
      stageSE_untouched res nb _ _ (by omega),
      stageNW_untouched res nb _ _ (by omega),
      stageNE_untouched res nb _ _ (by omega),
      stageW_untouched res nb _ _ (fun hc => by omega),
      stageE_hit res nb _ nE z hzres (by omega) hE,
      stageS_untouched res nb _ _ (by omega),
      stageN_untouched res nb _ _ (by omega)]
  · intro z hz0 hz1 nW hW
    have hzres : z < res := by omega
    have hmod : (z * res) % res = 0 := Nat.mul_mod_left z res
    have hzlo : res ≤ z * res := by
      calc res = 1 * res := (one_mul res).symm
        _ ≤ z * res := Nat.mul_le_mul_right res (by omega)
    have hzhi : z * res + res ≤ (res - 1) * res := by
      calc z * res + res = (z + 1) * res := by ring
        _ ≤ (res - 1) * res := Nat.mul_le_mul_right res (by omega)
    unfold matchChunkEdges
    rw [stageSW_untouched res nb _ _ (by omega),
      stageSE_untouched res nb _ _ (by omega),
      stageNW_untouched res nb _ _ (by omega),
      stageNE_untouched res nb _ _ (by omega),
      stageW_hit res nb _ nW z hzres (by omega) hW,
      stageE_untouched res nb _ _ (fun hc => by omega),
      stageS_untouched res nb _ _ (by omega),
      stageN_untouched res nb _ _ (by omega)]
  · intro x z hx0 hx1 hz0 hz1
    have hxres : x < res := by omega
    have hmod : (z * res + x) % res = x := mul_add_mod_lt z res x hxres
    have hzlo : res ≤ z * res := by
      calc res = 1 * res := (one_mul res).symm
        _ ≤ z * res := Nat.mul_le_mul_right res (by omega)
    have hzhi : z * res + res ≤ (res - 1) * res := by
      calc z * res + res = (z + 1) * res := by ring
        _ ≤ (res - 1) * res := Nat.mul_le_mul_right res (by omega)
    unfold matchChunkEdges
    rw [stageSW_untouched res nb _ _ (by omega),
      stageSE_untouched res nb _ _ (by omega),
      stageNW_untouched res nb _ _ (by omega),
      stageNE_untouched res nb _ _ (by omega),
      stageW_untouched res nb _ _ (fun hc => by omega),
      stageE_untouched res nb _ _ (fun hc => by omega),
      stageS_untouched res nb _ _ (by omega),
      stageN_untouched res nb _ _ (by omega)]
  · intro raw res2 s cx cz lod b k hk
    by_cases hg : loadChunkGuard (storeLookup s.loaded (cx, cz)) lod b = true
    · rw [loadChunk_guard_true raw res2 s cx cz lod b hg]
    · have hg' : loadChunkGuard (storeLookup s.loaded (cx, cz)) lod b = false :=
        eq_false_of_ne_true hg
      cases raw with
      | none => rw [loadChunk_state_err res2 s cx cz lod b hg']
      | some gg =>
        rw [loadChunk_state_ok gg res2 s cx cz lod b hg']
        exact lookup_storeSet_ne s.loaded k (cx, cz) _ hk

/-- C9 witness: with only a north neighbor (identically 5) over the zero
grid at resolution 4, the non-corner north-row cell 13 becomes
0·(1-0.5) + 5·0.5, interior cell 5 is unchanged, and a completed load of
(7,7) leaves the stored entry of (0,0) untouched. -/
theorem c9_witness :
    (2 ≤ 4 ∧
      matchChunkEdges 4 (fun _ => 0)
        { north := some fun _ => 5, south := none, east := none, west := none } ((4 - 1) * 4 + 1) =
        (fun _ => (0 : ℚ)) ((4 - 1) * 4 + 1) * (1 - BLEND_FACTOR) +
          (fun _ => (5 : ℚ)) 1 * BLEND_FACTOR) ∧
    matchChunkEdges 4 (fun _ => 0)
      { north := some fun _ => 5, south := none, east := none, west := none } (1 * 4 + 1) =
      (fun _ => (0 : ℚ)) (1 * 4 + 1) ∧
    storeLookup (loadChunk (some fun _ => 0) 33
      (loadChunk (some fun _ => 0) 33 initialState 0 0 0 false).1 7 7 0 false).1.loaded (0, 0) =
      storeLookup (loadChunk (some fun _ => 0) 33 initialState 0 0 0 false).1.loaded (0, 0) :=
  ⟨⟨by norm_num,
    (c9_amended 4 (by norm_num) (fun _ => 0)
      { north := some fun _ => 5, south := none, east := none, west := none }).1 1
      (by norm_num) (by norm_num) _ rfl⟩,
    (c9_amended 4 (by norm_num) (fun _ => 0)
      { north := some fun _ => 5, south := none, east := none, west := none }).2.2.2.2.1 1 1
      (by norm_num) (by norm_num) (by norm_num) (by norm_num),
    (c9_amended 4 (by norm_num) (fun _ => 0)
      { north := some fun _ => 5, south := none, east := none, west := none }).2.2.2.2.2
      (some fun _ => 0) 33 _ 7 7 0 false (0, 0) (by decide)⟩

/-! ## Claim C2 — boundedness of generated elevation grids -/

/-- For `resolution ≥ 4` every neighbor read of `smoothChunkEdges` is in
bounds, which also justifies modelling the sweep as a total function on
the `resolution²` cells. -/
theorem smoothReads_inBounds_of_four (res : ℕ) (h : 4 ≤ res) : SmoothReadsInBounds res := by
  intro i hi
  have hres : (4 : ℤ) ≤ (res : ℤ) := by exact_mod_cast h
  have hsq : 4 * (res : ℤ) ≤ (res : ℤ) * res := by nlinarith
  unfold smoothChunkEdgesReads at hi
  rcases List.mem_append.mp hi with h123 | h4
  rcases (fun h => List.mem_append.mp h : i ∈ _ ++ _ → _) (id h123) with h12 | h3
  rcases (fun h => List.mem_append.mp h : i ∈ _ ++ _ → _) (id h12) with h1 | h2
  · obtain ⟨x, hx, hxe⟩ := List.mem_map.mp h1
    have hxr : (x : ℤ) < res := by exact_mod_cast List.mem_range.mp hx
    have hx0 : (0 : ℤ) ≤ (x : ℤ) := Int.natCast_nonneg x
    subst hxe
    constructor
    · exact Int.natCast_nonneg _
    · push_cast
      linarith
  · obtain ⟨x, hx, hxe⟩ := List.mem_map.mp h2
    have hxr : (x : ℤ) < res := by exact_mod_cast List.mem_range.mp hx
    have hx0 : (0 : ℤ) ≤ (x : ℤ) := Int.natCast_nonneg x
    have haux : ((res : ℤ) - 3) * res + res ≤ (res : ℤ) * res := by nlinarith
    subst hxe
    constructor
    · nlinarith
    · linarith
  · obtain ⟨z, hz, hze⟩ := List.mem_map.mp h3
    have hzr : (z : ℤ) < res := by exact_mod_cast List.mem_range.mp hz
    have hz0 : (0 : ℤ) ≤ (z : ℤ) := Int.natCast_nonneg z
    have haux : (z : ℤ) * res + res ≤ (res : ℤ) * res := by nlinarith
    subst hze
    constructor
    · exact Int.natCast_nonneg _
    · push_cast
      linarith
  · obtain ⟨z, hz, hze⟩ := List.mem_map.mp h4
    have hzr : (z : ℤ) < res := by exact_mod_cast List.mem_range.mp hz
    have hz0 : (0 : ℤ) ≤ (z : ℤ) := Int.natCast_nonneg z
    have haux : (z : ℤ) * res + res ≤ (res : ℤ) * res := by nlinarith
    subst hze
    constructor
    · nlinarith
    · linarith

/-- C2 code bug: the spec admits any resolution ≥ 2 and claims every grid
cell stays in the clamp bounds [0.1, 0.9], but at resolution 3 (and 2)
the `smoothChunkEdges` north-edge statement reads
`heightmap[(BORDER_SIZE + 2) * resolution + x]` = `heightmap[9..11]`,
past the end of the 9-element array: JS yields `undefined`, the blend
produces NaN, and the returned grid violates the bounds.  At the
configured resolution 33 all reads are in bounds. -/
theorem c2_codebug : ¬ SmoothReadsInBounds 3 ∧ SmoothReadsInBounds 33 :=
  ⟨by decide, smoothReads_inBounds_of_four 33 (by norm_num)⟩

/-! ## Claim C1 — shared-edge equality after one-sided blending -/

/-- With only a west neighbor resident, every west-column cell of the new
tile (corners included — the corner fix-ups need two neighbors) is the
0.5/0.5 blend of its own value and the neighbor's east-column sample. -/
theorem westOnly_blend (res : ℕ) (hres : 1 ≤ res) (g nW : Grid) (z : ℕ) (hz : z < res) :
    matchChunkEdges res g
      { north := none, south := none, east := none, west := some nW } (z * res) =
      g (z * res) * (1 - BLEND_FACTOR) + nW (z * res + (res - 1)) * BLEND_FACTOR := by
  unfold matchChunkEdges
  simp only [stageN, stageS, stageE, stageNE, stageNW, stageSE, stageSW]
  exact stageW_hit res _ g nW z hz hres rfl

/-- A left fold with `min` is bounded by its initial accumulator. -/
theorem foldl_min_le_init : ∀ (l : List ℚ) (a : ℚ), l.foldl min a ≤ a
  | [], a => le_refl a
  | h :: t, a => le_trans (foldl_min_le_init t (min a h)) (min_le_left a h)

/-- A left fold with `min` is bounded by every member of the list. -/
theorem foldl_min_le_mem : ∀ (l : List ℚ) (a x : ℚ), x ∈ l → l.foldl min a ≤ x
  | [], _, x, hx => absurd hx (List.not_mem_nil x)
  | h :: t, a, x, hx => by
    rcases List.mem_cons.mp hx with rfl | hx'
    · exact le_trans (foldl_min_le_init t (min a x)) (min_le_right a x)
    · exact foldl_min_le_mem t (min a h) x hx'

/-- A left fold with `max` dominates its initial accumulator. -/
theorem le_foldl_max_init : ∀ (l : List ℚ) (a : ℚ), a ≤ l.foldl max a
  | [], a => le_refl a
  | h :: t, a => le_trans (le_max_left a h) (le_foldl_max_init t (max a h))

/-- A left fold with `max` dominates every member of the list. -/
theorem le_foldl_max_mem : ∀ (l : List ℚ) (a x : ℚ), x ∈ l → x ≤ l.foldl max a
  | [], _, x, hx => absurd hx (List.not_mem_nil x)
  | h :: t, a, x, hx => by
    rcases List.mem_cons.mp hx with rfl | hx'
    · exact le_trans (le_max_right a x) (le_foldl_max_init t (max a x))
    · exact le_foldl_max_mem t (max a h) x hx'

/-- Every in-range cell value is listed in `gridCells`. -/
theorem mem_gridCells (g : Grid) (res i : ℕ) (hi : i < res * res) :
    g i ∈ gridCells g res := by
  unfold gridCells
  exact List.mem_map.mpr ⟨i, List.mem_range.mpr hi, rfl⟩

/-- `gridMin` is a lower bound on every in-range cell. -/
theorem gridMin_le (g : Grid) (res i : ℕ) (hi : i < res * res) :
    gridMin g res ≤ g i := by
  unfold gridMin
  exact foldl_min_le_mem _ 1 _ (mem_gridCells g res i hi)

/-- `gridMax` is an upper bound on every in-range cell. -/
theorem le_gridMax (g : Grid) (res i : ℕ) (hi : i < res * res) :
    g i ≤ gridMax g res := by
  unfold gridMax
  exact le_foldl_max_mem _ 0 _ (mem_gridCells g res i hi)

set_option maxHeartbeats 20000000 in
/-- Exact value of tile (0,0)'s interior cell (x,z) = (1,1), index 5;
the edge-smoothing sweeps leave interior cells untouched. -/
theorem cellA5_eval :
    generateHeightmap repoState jsMathZero 0 0 100 4 5 =
      (65093572670240239510076797622577841812502534903633977579403375968396510944638126815839756230157198580919112901619153329579504106080459941444662169036123016960752759770006577857762087695526349247072110712561586030628865988665282396971591939095757547948574420346164133104519717403558219785769210081107076002115034381616645494708119455493501340326262766071138628817080306623963467582929570814002786057957484144631047790551769590503369318931771087087074839562979893193292914825938592331282538295960818405269782023350999406236842816278908307735581849449554070608550418833392654488174810288883927354980404100951688934654984413895024219601931416635304398077590158177710539427827629644615031974899588713671683837457050561389500473517884887531509830832352079275939574214415268471391198524263826506031027338891297326583432044168229516315838385258326144375740918416265031108938945068342414285453932724281027800863155204198632271006159950709966472459446989014050217803892998056590738206888240811610659297971157810248220850421288668921666082349556211429109087108201413543536383831389744603340676163811040740961526287724545131907329345903969953344993046270172775257944006027410362149535580365114726883563757771044505169583049284820279027457355809098453558657890856631178657639839583412206432428585740323429790972252127345250102088137537255546009329034997158817059369569004311746354788106560953078581500089914907592847485051997656924713623004411361343336404065758291481356528467658663951936895498206053821238564131485032911442359243024744037494903639288391 : ℚ) / 167982197198976290209945006585137444962944382769334882725857730850003984215436240071168949015192032611566791453214727873933280403742046326637720641754869478548781265998566091263002122034337335314190630057927962589856584591347147238625584868180423253408313699799657905551660886138259610214495724056821197156651111520696153997110498408339157422127232506614262239925281575097814517767590943277118556500244827899528436378290323909293832693079346798349243211585087921925783954355299775051514525656278070354418528869273672701945254118175229068662159683645291507202286503626356144466205008108002259453450318537373946705076092460162229286387743752012027133241647199194800950513910713603432534270196944366627866009158918350277473765766306496367115706673855635935495419835252038412386215418988054399482933436540488517924985873897207906883696760836343204021581281337711347594850421094473454813727244966157763139525107183927535023058592378902818651001257599731145078140113191560699420092218905059248593638602868357307835496145684086485496355843633773495145091890524265377538213337425831152419576958772564098645856402123961279452089635318378760513736431189282424771252299117933810740441130673764237049935830651475041927898081605664070813727320158644531314127642081997032633287212942092989428581972953517174538997625779337044567801407999456695204567322307033239066931880499051976254977263783342356383861936940684232077216159581930187105986603378121113600000000000000000000000000000000000000000000000000000000000000000000000000000000000000000000000000000000 := by
  with_unfolding_all rfl

set_option maxHeartbeats 20000000 in
/-- Exact value of tile (0,0)'s interior cell (x,z) = (2,2), index 10. -/
theorem cellA10_eval :
    generateHeightmap repoState jsMathZero 0 0 100 4 10 =
      (25731601593454208744312610811580121194588805014872408483151981542630761193073457243613739451418140023079646871987213812007029070359835838159278158636108124837192960808832082464917149462643235212496466038417260038434407412708296931926765295239956207820683936511123294760815482499249110409845040258120664653705867392807913452665171179513673352797460995921662250430643898328018063157190940710847672536835889471038134793102066629959748348106561772059880004378898819053777241641869237906219795151692344559601910326004700590887861609593846443283822597492752614935875160200027561259957819870649567071711491647900707885655649506220654934906144521453701985222188611106061500898466054900433206128005310722644644482107920493965883740148350878357375681248846855304220016917834453315641425045778623208827486765902334908653818598136021033834766529428175522280397476412957403471123278746013593455429900155155322059951596303671051606671617415981253511988901021451728528334733232699331242582709390329401383085874111340902200750020526477864583393694521038380985653774887597646102416058628288766700956286984482607711628541342029605358517963345096935016427214115222242338366035355353210084038040320820889761336449286120284847261062158354583118906034201011714928463621089353521626809466496234565787477311070367973906682544575815967043564170984865458260337956868087714484536867883634057075748122250813295845674325658833774673805834576609332351871263731104090532593238481650683027557933954657296598814391 : ℚ) / 104535577957791253880301057080447210833708335499697692068654340548494126470988150835300879280175570865245492481672304648052355696276342595537508445605465571045249520385585130316491466772057699763055812725438135184743318071745294517304306396818551529426810155069430021502053376047263676215651914955961703142530090678246488001718816109143941891802939318729519642665977035288923229133636521354114847931814698670905949285037378321104879969350232066372905579672961600927306082590919541405885221087265580453458379361734709019602568858351868859844387327155115027761221685695818637311292674861024481876417504886345436286557886813349811075621190445177151828311727239881914698536728107354868220138965516999578588913930837419609908540799058289588953113481694418754445319206661344595258701433883068329916830417014060023995694755917595236209581812191021743173915934955297329163631309564285523385165408938540011775972073029213514789567440920947220034515481396587886180754429088775269416375037758503831221532015247121143939095085590495133265857752538793981744066370030986297578440130842006042745426982991906736002240826625825260101012518737330800487923415901605353265348567189610141214861180761847996323037959339423502545193239511070903420915058057765474028414869707389714803167799837674074563321514429649950524717884875922523138209289201497845114073421495818714639891323072587180551221909913600000000000000000000000000000000000000000000000000000000000000000000000000000000000000000000000000000000 := by
  with_unfolding_all rfl

set_option maxHeartbeats 20000000 in
/-- Exact value of tile (1,0)'s interior cell (x,z) = (1,1), index 5. -/
theorem cellB5_eval :
    generateHeightmap repoState jsMathZero 1 0 100 4 5 =
      (45727961288513300007014575969331968120726956060456215027554275649367015404341968296198331964102746353326738698695420349000232857883205992078626623100439796416995693924527129803730415239118177306384349309024997666291942450638366109571561772461386763027684716039965355783255126103190054430758115140148225856679006965786289674404180224355646767805919189717297066075046293267402146067350575999734712257814359139300578887996432043836368103762250071152744591461732124736785440047867702879751735253708016589840878448348394455266356744497009654064624975478998667990517617469872081963678461048564427550715450185549443525845532384612072926786951437204545016232642988130261315835377946557612708868050181562397034497461855941322293995856842032495187026551570549917083030973630385327948465137316007370998399594219433674802134915257242134446013797040775647356080407118541180105032057699186873123328461797131914244680431484554075871929313150368735059205795130702135887492573913964873618842265839670963491543456721876537659056244942065834113163320863758034318204501204995744284433916310388154107307813501047594946198532303392809438606446520736795377639545215232373816476127912218753695023253423188443382216081023236957895791445764894843031500161305179466676601848856287628167875478505828845683867893291887269616407971087936621006072165880004437426922773302539145221998331516036070204803092023635246768658724489396910487720973614967555843159885649341504290192986535179883100940514713369467072645161060961289664670060048685073720919821624862789410689093562722515230599947158506460762237197768304391 : ℚ) / 135776864943326467029569799694481298229885990595097608798040276858459780712083109989247032598655520263159343809805823161970981585856051305903637368691625640845635280549843778710595280442493352551450020255347637674431362321095641701723064557208051017826850208144567280361877552595612890169019681168970145211321935026554114052396842683741470201273352166528669172480754429824820944735245077778377294264622422530514830507111896958474521382909828593239252989441781916141919226082767006629440771153083943357216774041916541305171826711928537208893651312206027030531892579184340495002452485686188920957632913204665275363975658303855314829031829606776882705191974710640204427949055471121413443141312272298030354817342904043030811218056682956782354380347600149934077825608684455273145919183067773509460642657618478792151713951899858555217962467262593447368192547423323748239633398763726254399854824512890400448107214421151635433000292785345377588389926363341912028798120751199527454847415323359801207865299707335692347210554682328144082748976463120938636665338968729327522904036771587940734896542702845114959997379640137182955671546593144550921346927415239159508466229278650346750928182151390447189684597109380741947697681224100216283365364008503384869964359725607433834868599667288239569150425617337526525402908357139651914346715532994133305972271002054601710144504477619195133038341842305085353332324265168492275729161245274354043261360992138205932428846239389950118018213378149423513600000000000000000000000000000000000000000000000000000000000000000000000000000000000000000000000000000000 := by
  with_unfolding_all rfl

set_option maxHeartbeats 20000000 in
/-- Exact value of tile (1,0)'s interior cell (x,z) = (2,2), index 10. -/
theorem cellB10_eval :
    generateHeightmap repoState jsMathZero 1 0 100 4 10 =
      (15935070080712656056690665810063289559976459835305571019435904402550317513769920250170299419642498153235952902897451805324327903922242020432049302530044833898879227095072988946009870588884551225271614483513788587192131873175515955191022760123202095996183391732677783151663484419848341995193028747099498012302840241709474194057089678897671728471075750202817730878818563189990043088616827207155366360842253848307948474217233607571892260891563112722107217226991240944932239450696099415200870171221520777616375826618853557654878940038717998805758402564199035920502166072076245650634878454724821662846905712756530097956646001667012497439716489956359921986839371992776946684170686015592195790990262204154066421782204959788034308035851457062333427175894431109870143704876088274728184783078768164418174624209247759770350578268727251963161970756778325118433409334382014652713302739772774051145175118887860896532382491601943691537536961271331531697969337765695607896053153627689789403757387590211454990703631022182697777409284960772102523983818231628092184084081300080480855788001193120425657582028063014584394934753732184260758407578562425566469085569520712180468381826108670445565790415734990572564949104432763723915866293898985392573530574844327417265043352308387973414775875237873968876610350281756713757120520340424302720152254214281650123885983060367985889938757504262603394127595620777075716304060225956282777294499379151671901545180247804641462759873532949259618715812358279219931142021898011467711700456653206137372249064825587028905344210405291793584668150178778637711 : ℚ) / 87913085294819554662165813831788400287325379828319211140704824662799037450530003907332853753704315266619994451023640889066297866429044029604746094875795751889729352087275872911241911327253765415796373586719550154687097826736706097033748063833397516471789325131948753430152208780691755525907058530225444900322254179732394469401855655774664001647765702606740336067820943936985206256900992461244690473618264925144415613264723748024144079363808618829004108355337458451347668221786644544890451920514169177255173327762668310710002892879003533440382340023505585387075536219278345179606637018949054310214558084447298949316134034424518715379729435124598328674627335794075325003814781197340266816212880578675140574278914093903713025535859304943585662138439315517806291627716824072290236000221247970284828896406877731343065348332818664148908495045758313973938029192470200416214207893578382397853736191970154868853412566859921489254870721656214504534659964886115329990650149149594052196979428552210472011022345604409374712146497381241726575499343723375981100282768391167355479114681393689774803927532763915314218374559427365943773009485797567227704538770990925017720379791917742179509293965690051920773903131535008341642986817604794743073659868136864377245148318678342094773378396735387459691200251511717344693437496831839302265936829485968910850056055481797875735011661810241580625692139819100410295562033009835961833430093830269755927926101496396537929304412020380286949785600000000000000000000000000000000000000000000000000000000000000000000000000000000000000000000000000000000 := by
  with_unfolding_all rfl

/-- The tile (0,0) grid has height variation at least the 0.1 fallback
threshold — its cells 5 and 10 alone differ by more than 0.1 — so
`generateHeightmapForChunk` does not take the `enhanceHeightVariation`
branch for it (seed 42, tile size 100, resolution 4). -/
theorem hVarA_ge :
    ¬ heightVariation (generateHeightmap repoState jsMathZero 0 0 100 4) 4 <
      MIN_HEIGHT_VARIATION := by
  have hmax := le_gridMax (generateHeightmap repoState jsMathZero 0 0 100 4) 4 5 (by norm_num)
  have hmin := gridMin_le (generateHeightmap repoState jsMathZero 0 0 100 4) 4 10 (by norm_num)
  rw [cellA5_eval] at hmax
  rw [cellA10_eval] at hmin
  have hgap : MIN_HEIGHT_VARIATION ≤
      ((65093572670240239510076797622577841812502534903633977579403375968396510944638126815839756230157198580919112901619153329579504106080459941444662169036123016960752759770006577857762087695526349247072110712561586030628865988665282396971591939095757547948574420346164133104519717403558219785769210081107076002115034381616645494708119455493501340326262766071138628817080306623963467582929570814002786057957484144631047790551769590503369318931771087087074839562979893193292914825938592331282538295960818405269782023350999406236842816278908307735581849449554070608550418833392654488174810288883927354980404100951688934654984413895024219601931416635304398077590158177710539427827629644615031974899588713671683837457050561389500473517884887531509830832352079275939574214415268471391198524263826506031027338891297326583432044168229516315838385258326144375740918416265031108938945068342414285453932724281027800863155204198632271006159950709966472459446989014050217803892998056590738206888240811610659297971157810248220850421288668921666082349556211429109087108201413543536383831389744603340676163811040740961526287724545131907329345903969953344993046270172775257944006027410362149535580365114726883563757771044505169583049284820279027457355809098453558657890856631178657639839583412206432428585740323429790972252127345250102088137537255546009329034997158817059369569004311746354788106560953078581500089914907592847485051997656924713623004411361343336404065758291481356528467658663951936895498206053821238564131485032911442359243024744037494903639288391 : ℚ) / 167982197198976290209945006585137444962944382769334882725857730850003984215436240071168949015192032611566791453214727873933280403742046326637720641754869478548781265998566091263002122034337335314190630057927962589856584591347147238625584868180423253408313699799657905551660886138259610214495724056821197156651111520696153997110498408339157422127232506614262239925281575097814517767590943277118556500244827899528436378290323909293832693079346798349243211585087921925783954355299775051514525656278070354418528869273672701945254118175229068662159683645291507202286503626356144466205008108002259453450318537373946705076092460162229286387743752012027133241647199194800950513910713603432534270196944366627866009158918350277473765766306496367115706673855635935495419835252038412386215418988054399482933436540488517924985873897207906883696760836343204021581281337711347594850421094473454813727244966157763139525107183927535023058592378902818651001257599731145078140113191560699420092218905059248593638602868357307835496145684086485496355843633773495145091890524265377538213337425831152419576958772564098645856402123961279452089635318378760513736431189282424771252299117933810740441130673764237049935830651475041927898081605664070813727320158644531314127642081997032633287212942092989428581972953517174538997625779337044567801407999456695204567322307033239066931880499051976254977263783342356383861936940684232077216159581930187105986603378121113600000000000000000000000000000000000000000000000000000000000000000000000000000000000000000000000000000000) -
      ((25731601593454208744312610811580121194588805014872408483151981542630761193073457243613739451418140023079646871987213812007029070359835838159278158636108124837192960808832082464917149462643235212496466038417260038434407412708296931926765295239956207820683936511123294760815482499249110409845040258120664653705867392807913452665171179513673352797460995921662250430643898328018063157190940710847672536835889471038134793102066629959748348106561772059880004378898819053777241641869237906219795151692344559601910326004700590887861609593846443283822597492752614935875160200027561259957819870649567071711491647900707885655649506220654934906144521453701985222188611106061500898466054900433206128005310722644644482107920493965883740148350878357375681248846855304220016917834453315641425045778623208827486765902334908653818598136021033834766529428175522280397476412957403471123278746013593455429900155155322059951596303671051606671617415981253511988901021451728528334733232699331242582709390329401383085874111340902200750020526477864583393694521038380985653774887597646102416058628288766700956286984482607711628541342029605358517963345096935016427214115222242338366035355353210084038040320820889761336449286120284847261062158354583118906034201011714928463621089353521626809466496234565787477311070367973906682544575815967043564170984865458260337956868087714484536867883634057075748122250813295845674325658833774673805834576609332351871263731104090532593238481650683027557933954657296598814391 : ℚ) / 104535577957791253880301057080447210833708335499697692068654340548494126470988150835300879280175570865245492481672304648052355696276342595537508445605465571045249520385585130316491466772057699763055812725438135184743318071745294517304306396818551529426810155069430021502053376047263676215651914955961703142530090678246488001718816109143941891802939318729519642665977035288923229133636521354114847931814698670905949285037378321104879969350232066372905579672961600927306082590919541405885221087265580453458379361734709019602568858351868859844387327155115027761221685695818637311292674861024481876417504886345436286557886813349811075621190445177151828311727239881914698536728107354868220138965516999578588913930837419609908540799058289588953113481694418754445319206661344595258701433883068329916830417014060023995694755917595236209581812191021743173915934955297329163631309564285523385165408938540011775972073029213514789567440920947220034515481396587886180754429088775269416375037758503831221532015247121143939095085590495133265857752538793981744066370030986297578440130842006042745426982991906736002240826625825260101012518737330800487923415901605353265348567189610141214861180761847996323037959339423502545193239511070903420915058057765474028414869707389714803167799837674074563321514429649950524717884875922523138209289201497845114073421495818714639891323072587180551221909913600000000000000000000000000000000000000000000000000000000000000000000000000000000000000000000000000000000) := by
    with_unfolding_all decide
  intro hlt
  unfold heightVariation at hlt
  exact absurd hlt (not_lt.mpr (le_trans hgap (sub_le_sub hmax hmin)))

/-- The tile (1,0) grid likewise has variation at least 0.1 (cells 5 and
10 differ by more than 0.1). -/
theorem hVarB_ge :
    ¬ heightVariation (generateHeightmap repoState jsMathZero 1 0 100 4) 4 <
      MIN_HEIGHT_VARIATION := by
  have hmax := le_gridMax (generateHeightmap repoState jsMathZero 1 0 100 4) 4 5 (by norm_num)
  have hmin := gridMin_le (generateHeightmap repoState jsMathZero 1 0 100 4) 4 10 (by norm_num)
  rw [cellB5_eval] at hmax
  rw [cellB10_eval] at hmin
  have hgap : MIN_HEIGHT_VARIATION ≤
      ((45727961288513300007014575969331968120726956060456215027554275649367015404341968296198331964102746353326738698695420349000232857883205992078626623100439796416995693924527129803730415239118177306384349309024997666291942450638366109571561772461386763027684716039965355783255126103190054430758115140148225856679006965786289674404180224355646767805919189717297066075046293267402146067350575999734712257814359139300578887996432043836368103762250071152744591461732124736785440047867702879751735253708016589840878448348394455266356744497009654064624975478998667990517617469872081963678461048564427550715450185549443525845532384612072926786951437204545016232642988130261315835377946557612708868050181562397034497461855941322293995856842032495187026551570549917083030973630385327948465137316007370998399594219433674802134915257242134446013797040775647356080407118541180105032057699186873123328461797131914244680431484554075871929313150368735059205795130702135887492573913964873618842265839670963491543456721876537659056244942065834113163320863758034318204501204995744284433916310388154107307813501047594946198532303392809438606446520736795377639545215232373816476127912218753695023253423188443382216081023236957895791445764894843031500161305179466676601848856287628167875478505828845683867893291887269616407971087936621006072165880004437426922773302539145221998331516036070204803092023635246768658724489396910487720973614967555843159885649341504290192986535179883100940514713369467072645161060961289664670060048685073720919821624862789410689093562722515230599947158506460762237197768304391 : ℚ) / 135776864943326467029569799694481298229885990595097608798040276858459780712083109989247032598655520263159343809805823161970981585856051305903637368691625640845635280549843778710595280442493352551450020255347637674431362321095641701723064557208051017826850208144567280361877552595612890169019681168970145211321935026554114052396842683741470201273352166528669172480754429824820944735245077778377294264622422530514830507111896958474521382909828593239252989441781916141919226082767006629440771153083943357216774041916541305171826711928537208893651312206027030531892579184340495002452485686188920957632913204665275363975658303855314829031829606776882705191974710640204427949055471121413443141312272298030354817342904043030811218056682956782354380347600149934077825608684455273145919183067773509460642657618478792151713951899858555217962467262593447368192547423323748239633398763726254399854824512890400448107214421151635433000292785345377588389926363341912028798120751199527454847415323359801207865299707335692347210554682328144082748976463120938636665338968729327522904036771587940734896542702845114959997379640137182955671546593144550921346927415239159508466229278650346750928182151390447189684597109380741947697681224100216283365364008503384869964359725607433834868599667288239569150425617337526525402908357139651914346715532994133305972271002054601710144504477619195133038341842305085353332324265168492275729161245274354043261360992138205932428846239389950118018213378149423513600000000000000000000000000000000000000000000000000000000000000000000000000000000000000000000000000000000) -
      ((15935070080712656056690665810063289559976459835305571019435904402550317513769920250170299419642498153235952902897451805324327903922242020432049302530044833898879227095072988946009870588884551225271614483513788587192131873175515955191022760123202095996183391732677783151663484419848341995193028747099498012302840241709474194057089678897671728471075750202817730878818563189990043088616827207155366360842253848307948474217233607571892260891563112722107217226991240944932239450696099415200870171221520777616375826618853557654878940038717998805758402564199035920502166072076245650634878454724821662846905712756530097956646001667012497439716489956359921986839371992776946684170686015592195790990262204154066421782204959788034308035851457062333427175894431109870143704876088274728184783078768164418174624209247759770350578268727251963161970756778325118433409334382014652713302739772774051145175118887860896532382491601943691537536961271331531697969337765695607896053153627689789403757387590211454990703631022182697777409284960772102523983818231628092184084081300080480855788001193120425657582028063014584394934753732184260758407578562425566469085569520712180468381826108670445565790415734990572564949104432763723915866293898985392573530574844327417265043352308387973414775875237873968876610350281756713757120520340424302720152254214281650123885983060367985889938757504262603394127595620777075716304060225956282777294499379151671901545180247804641462759873532949259618715812358279219931142021898011467711700456653206137372249064825587028905344210405291793584668150178778637711 : ℚ) / 87913085294819554662165813831788400287325379828319211140704824662799037450530003907332853753704315266619994451023640889066297866429044029604746094875795751889729352087275872911241911327253765415796373586719550154687097826736706097033748063833397516471789325131948753430152208780691755525907058530225444900322254179732394469401855655774664001647765702606740336067820943936985206256900992461244690473618264925144415613264723748024144079363808618829004108355337458451347668221786644544890451920514169177255173327762668310710002892879003533440382340023505585387075536219278345179606637018949054310214558084447298949316134034424518715379729435124598328674627335794075325003814781197340266816212880578675140574278914093903713025535859304943585662138439315517806291627716824072290236000221247970284828896406877731343065348332818664148908495045758313973938029192470200416214207893578382397853736191970154868853412566859921489254870721656214504534659964886115329990650149149594052196979428552210472011022345604409374712146497381241726575499343723375981100282768391167355479114681393689774803927532763915314218374559427365943773009485797567227704538770990925017720379791917742179509293965690051920773903131535008341642986817604794743073659868136864377245148318678342094773378396735387459691200251511717344693437496831839302265936829485968910850056055481797875735011661810241580625692139819100410295562033009835961833430093830269755927926101496396537929304412020380286949785600000000000000000000000000000000000000000000000000000000000000000000000000000000000000000000000000000000) := by
    with_unfolding_all decide
  intro hlt
  unfold heightVariation at hlt
  exact absurd hlt (not_lt.mpr (le_trans hgap (sub_le_sub hmax hmin)))

theorem forChunkA :
    generateHeightmapForChunk repoState jsMathZero 0 0 100 4 =
      generateHeightmap repoState jsMathZero 0 0 100 4 := by
  unfold generateHeightmapForChunk
  rw [if_neg hVarA_ge]

theorem forChunkB :
    generateHeightmapForChunk repoState jsMathZero 1 0 100 4 =
      generateHeightmap repoState jsMathZero 1 0 100 4 := by
  unfold generateHeightmapForChunk
  rw [if_neg hVarB_ge]

set_option maxHeartbeats 20000000 in
/-- Exact value of tile (0,0)'s east-edge cell (z = 0, x = 3). -/
theorem cellA3_eval :
    generateHeightmap repoState jsMathZero 0 0 100 4 3 =
      (21752504569155349685151313271383766882895427210091107108272094169694605459626632125035232389863035534177634715588271306405021440264002935200752797031097276557249742381991211578951151710424158720320315545314569697925714976879521831138599059828615751095295855370949391706717366173124654172055094448232659600347536902613760669688417689750428401194056379818160439341386608070027326792185927913056353030530253568954970872009505080001311041711398726014266133671884660442941199048903435490609421638833436161810631728822559902579869617084660823246240469031676907970939725200265390290836933753363920152448249600856351480377396525504730741664476635604563922859489190691527277042386263147555072801913524278943022009217974947235100948461658101595071690278211192736509708303086891238935047564709515941209840465713412022343877526145319576491733440999968888935565294258414901092919848460231291189023194258572572580313061910790424066300088718919910462366804120937954622548847413963159675492498052744441399260383843400039162931815438245751522367527048576324388440351781519382376602913735137723782337217081348925899128501229366632082163520676708296413645148630045749236394477033930058064634666429415711673383817109048148255476247838915455543797536227206308059727888936858262248420709200276660672491860395729944750587284846531 : ℚ) / 72186489755622348892910148106296840046586941802464565686444267317330907401203125891702831488077001434907740304184117474200153405065465884162820042437021390945071182872946856509156281936685982489387364732654537492243007150534647437795803812053965670756857560965209001958164156548432394736705541168991606254207974920233217409286885452757616269381697056874382593377442885622650527490391964818735146992078828659445754950417304522379159283851630629384975504314039198441299932398374840088038939306575342404944683929388888316387873986521696355288274451279941205322668414352727825085839694103345242632327714243988737540528399032425342466109431502607959189124549656136954896487506217074541110724246389253473136882668959218998306010607257113898106808249064452824780072356794201087031087855760711224438893538676723709906908502658334390472018047149076065411985670942173215013936039182546515471401809065987081870787761172825664784446382893139696655567484219693164249806117723311115497664666077027517995363425443146154276523161578349955036963529026060549541977012785204611261460581143161375339256326650352135898041863977872974563176342647666461503897897266829421879413742201840928673385105680227019483316119142400000000000000000000000000000000000000000000000000000000000000000000000000000000000000000000000000000000000000 := by
  with_unfolding_all rfl

set_option maxHeartbeats 20000000 in
/-- Exact value of tile (1,0)'s west-edge cell (z = 0, x = 0) before
blending. -/
theorem cellB0_eval :
    generateHeightmap repoState jsMathZero 1 0 100 4 0 =
      (6617353903224939598112128193118812952233197940424232029632337300947383189064329735684824126260148205154740910134158326374600938288394058650384536032083843518129741014891924510157050339227656284370940648531089096230552749045801077050104918671143374183453234253800061978616215889953013498537948709471892883803282385056992659645393923672947703393743923720638295913020086548211032616155566216851138501057287230679157414867329183991414607739669348670641445381803199571836774616784940881038304163752586557486865855534000054621887663098662320794407316444653073299280044156349380121456096699496850491384559887436999260425403394205036135490052371953289211321490179417873103718290062806073032670759040731039746190487510054728676266824375604993456666151642632512235981573892952699890007414449200387910716836448793360206288369115080420467736833705377243777619427692827062665338779351721774578334698556811157815617411377319282719933040482404079282339385314795019424034876616827507038337430832170021721316748893331840421683733419163524139239691910581482506944231022761642229947220961082297155986521185865759826431893068426130324237408026671861386789194138619169077637211364636087241359090945050766729567406453715013695500581436368507335428533771697941627798204693152656640859227417114528112106515967867094480058720284614111921 : ℚ) / 15984525125924040299165442508232707904665921224351488022070678278079022816751162677921851862022970716487001839581629822752668219058915106227238852571988785427183156040492395987534384845297639675059379375369441691422964984619701487079016572367404820846956307940379848837353632300106441788028970626829195091392725166493192205503679871624566811590199360667657816586292343574244591241675581739680593855257235325668546440251967805282376162070581013879575319578398877357851198905718634746344792476677377726260919905049316748228953391362948680312814942776109680874118426996678345038101555364156624620736196993974841111364980379246315177304859327990615183094808247419616436310090329795129667676835093896356257224192697648459866143576304719944634908451121275780689144347236277924955370150480553389094595842119956968798598900650519952836183226247896722199421282062991448150092159416338209470265520338265516990205549410603185049462904237963772304304766408832481209200505420414242721331003251933992162905805908721264739529060630149949356166222845474435212140752354825801588917446959709510196529050621412412272413027597610329781178749463757713320038751008908789497090632737286893739630189144918969775513750697148416000000000000000000000000000000000000000000000000000000000000000000000000000000000000000000000000000000000000000 := by
  with_unfolding_all rfl

/-- C1 counterexample: generate tile (0,0) then tile (1,0) with seed 42,
tile size 100, resolution 4; after tile (1,0)'s edge blend against the
resident west neighbor (exactly the `loadChunk` sequence), the east edge
column of tile (0,0) does NOT equal the west edge column of tile (1,0):
at row z = 0 the blended cell is the average of two unequal pre-blend
edge values (≈0.204 vs ≈0.161).  The variation checks above show the
fallback branch (and with region archetype (0+0) mod 5 = 0 = mountains,
the `Math.pow` branch) is not taken, so the oracle instantiation is never
consulted. -/
theorem c1_counterexample :
    ¬ ∀ z, z < 4 →
      generateHeightmapForChunk repoState jsMathZero 0 0 100 4 (z * 4 + 3) =
        matchChunkEdges 4 (generateHeightmapForChunk repoState jsMathZero 1 0 100 4)
          { north := none, south := none, east := none,
            west := some (generateHeightmapForChunk repoState jsMathZero 0 0 100 4) }
          (z * 4) := by
  intro h
  have h0 := h 0 (by norm_num)
  rw [forChunkA, forChunkB] at h0
  have hblend := westOnly_blend 4 (by norm_num)
    (generateHeightmap repoState jsMathZero 1 0 100 4)
    (generateHeightmap repoState jsMathZero 0 0 100 4) 0 (by norm_num)
  norm_num at hblend h0
  rw [hblend, cellA3_eval, cellB0_eval] at h0
  exact absurd h0 (by with_unfolding_all decide)

/-- C1 amended: after the second tile's blending step, tile (1,0)'s west
edge column equals, element-wise, the average
`0.5 · (its own pre-blend west column) + 0.5 · (tile (0,0)'s east
column)`; it equals tile (0,0)'s east column only where the two pre-blend
columns already coincide, which the counterexample shows fails in
general. -/
theorem c1_amended (res : ℕ) (hres : 1 ≤ res) (g nW : Grid) (z : ℕ) (hz : z < res) :
    matchChunkEdges res g
      { north := none, south := none, east := none, west := some nW } (z * res) =
      g (z * res) * (1 - BLEND_FACTOR) + nW (z * res + (res - 1)) * BLEND_FACTOR :=
  westOnly_blend res hres g nW z hz

/-- C1 amended witness at a concrete grid. -/
theorem c1_amended_witness :
    (1 ≤ 4 ∧
      matchChunkEdges 4 (fun i => (i : ℚ))
        { north := none, south := none, east := none, west := some fun _ => 2 } (1 * 4) =
        ((1 * 4 : ℕ) : ℚ) * (1 - BLEND_FACTOR) + 2 * BLEND_FACTOR) ∧
    matchChunkEdges 4 (fun i => (i : ℚ))
      { north := none, south := none, east := none, west := some fun _ => 2 } 4 = 3 :=
  ⟨⟨by norm_num, c1_amended 4 (by norm_num) (fun i => (i : ℚ)) (fun _ => 2) 1 (by norm_num)⟩,
    by with_unfolding_all decide⟩

end InfHorizons
